import Mathlib

/-!
Verification of the coin-machine firmware (src/coin_machine_firmware.ino,
src/config.h) against its natural-language specification.

The firmware is shallowly embedded: every global variable of the sketch is a
field of the `Machine` record, `millis()` becomes an explicit `Nat` time
argument, interrupt-context execution (`sensorInterrupt`) and polling-context
execution (one iteration of `loop`) become pure state-transformers, and the
environment inputs (the result of `captureAndSaveImage`) become parameters of
the polling step.  Times are `Nat` milliseconds; the firmware's `unsigned long`
subtractions `now - earlier` are taken at `now ≥ earlier`, where C unsigned
subtraction and `Nat` truncated subtraction agree.
-/

namespace CoinMachine

/-- The `CoinMachineState` enum of config.h. -/
inductive CoinMachineState where
  | STATE_INIT
  | STATE_WAITING_FOR_COIN
  | STATE_COIN_DETECTED
  | STATE_PROCESSING
  | STATE_PHOTOGRAPHING
  | STATE_REJECTING
  | STATE_ERROR
deriving DecidableEq, Repr

export CoinMachineState (STATE_INIT STATE_WAITING_FOR_COIN STATE_COIN_DETECTED
  STATE_PROCESSING STATE_PHOTOGRAPHING STATE_REJECTING STATE_ERROR)

/-- The `StatusCode` enum of config.h. -/
inductive StatusCode where
  | STATUS_OK
  | STATUS_MULTIPLE_COINS
  | STATUS_COIN_DURING_PROCESSING
  | STATUS_CAMERA_ERROR
  | STATUS_STORAGE_ERROR
  | STATUS_TIMEOUT_ERROR
deriving DecidableEq, Repr

export StatusCode (STATUS_OK STATUS_MULTIPLE_COINS STATUS_COIN_DURING_PROCESSING
  STATUS_CAMERA_ERROR STATUS_STORAGE_ERROR STATUS_TIMEOUT_ERROR)

/-- The `RGBColor` struct of config.h. -/
structure RGBColor where
  r : Nat
  g : Nat
  b : Nat
deriving DecidableEq, Repr

def LED_READY : RGBColor := ⟨0, 255, 0⟩
def LED_PROCESSING : RGBColor := ⟨255, 255, 0⟩
def LED_BUSY : RGBColor := ⟨255, 0, 0⟩
def LED_ERROR : RGBColor := ⟨255, 0, 255⟩
def LED_OFF : RGBColor := ⟨0, 0, 0⟩

-- Timing constants from config.h (milliseconds).
def TRAPDOOR_OPEN_TIME : Nat := 2000
def SERVO_MOVE_DELAY : Nat := 500
def FLIPPER_PHOTO_DELAY : Nat := 300
def SENSOR_DEBOUNCE_TIME : Nat := 50
def MULTI_COIN_TIMEOUT : Nat := 1000
def PROCESSING_TIMEOUT : Nat := 10000
def RESET_TIMEOUT : Nat := 30000
def MULTI_COIN_THRESHOLD : Nat := 2

-- Servo positions from config.h (degrees).
def TRAPDOOR_CLOSED : Nat := 0
def TRAPDOOR_OPEN : Nat := 90
def FLIPPER_HOME : Nat := 0
def FLIPPER_SIDE_1 : Nat := 90
def FLIPPER_SIDE_2 : Nat := 180

/-- All mutable global state of the sketch: the state-machine globals of
coin_machine_firmware.ino, the sensor globals and the `static` local
`lastErrorReport` of `handleError`, plus the externally observable hardware
state (servo angles, status LED, camera lights). -/
structure Machine where
  currentState : CoinMachineState
  previousState : CoinMachineState
  stateStartTime : Nat
  processingCoin : Bool
  currentPhotoStep : Nat
  lastError : StatusCode
  errorCount : Nat
  lastErrorReport : Nat
  flipperMoveTime : Nat
  trapdoorOpenTime : Nat
  sensorTriggered : Bool
  lastSensorTrigger : Nat
  sensorTriggerCount : Nat
  sensorWindowStart : Nat
  trapdoorPosition : Nat
  flipperPosition : Nat
  statusLED : RGBColor
  cameraLights : Bool
deriving DecidableEq, Repr

/-- `setStatusLED` of hardware_functions.h. -/
def setStatusLED (color : RGBColor) (s : Machine) : Machine :=
  { s with statusLED := color }

/-- `setCameraLights` of hardware_functions.h. -/
def setCameraLights (lit : Bool) (s : Machine) : Machine :=
  { s with cameraLights := lit }

/-- `openTrapdoor` of hardware_functions.h. -/
def openTrapdoor (s : Machine) : Machine :=
  { s with trapdoorPosition := TRAPDOOR_OPEN }

/-- `closeTrapdoor` of hardware_functions.h. -/
def closeTrapdoor (s : Machine) : Machine :=
  { s with trapdoorPosition := TRAPDOOR_CLOSED }

/-- `moveFlipperHome` of hardware_functions.h. -/
def moveFlipperHome (s : Machine) : Machine :=
  { s with flipperPosition := FLIPPER_HOME }

/-- `moveFlipperToSide1` of hardware_functions.h. -/
def moveFlipperToSide1 (s : Machine) : Machine :=
  { s with flipperPosition := FLIPPER_SIDE_1 }

/-- `moveFlipperToSide2` of hardware_functions.h. -/
def moveFlipperToSide2 (s : Machine) : Machine :=
  { s with flipperPosition := FLIPPER_SIDE_2 }

/-- `isSensorTriggered` of hardware_functions.h. -/
def isSensorTriggered (s : Machine) : Bool :=
  s.sensorTriggered

/-- `clearSensorTrigger` of hardware_functions.h. -/
def clearSensorTrigger (s : Machine) : Machine :=
  { s with sensorTriggered := false }

/-- `resetSensorCount` of hardware_functions.h: clears the count and the
window start, and nothing else. -/
def resetSensorCount (s : Machine) : Machine :=
  { s with sensorTriggerCount := 0, sensorWindowStart := 0 }

/-- `sensorInterrupt` of hardware_functions.h, at interrupt time
`currentTime = millis()`.  An edge closer than `SENSOR_DEBOUNCE_TIME` to the
last accepted edge is dropped; otherwise it updates `lastSensorTrigger`,
opens a window if the count was zero, increments the count and latches the
triggered flag. -/
def sensorInterrupt (currentTime : Nat) (s : Machine) : Machine :=
  if currentTime - s.lastSensorTrigger < SENSOR_DEBOUNCE_TIME then
    s
  else
    { s with
      lastSensorTrigger := currentTime,
      sensorWindowStart :=
        if s.sensorTriggerCount = 0 then currentTime else s.sensorWindowStart,
      sensorTriggerCount := s.sensorTriggerCount + 1,
      sensorTriggered := true }

/-- `isMultipleCoinDetected` of hardware_functions.h. -/
def isMultipleCoinDetected (currentTime : Nat) (s : Machine) : Bool :=
  if 0 < s.sensorTriggerCount ∧
      MULTI_COIN_TIMEOUT < currentTime - s.sensorWindowStart then
    decide (MULTI_COIN_THRESHOLD ≤ s.sensorTriggerCount)
  else
    false

/-- `systemReset` of hardware_functions.h: hardware to safe states and the
detector count cleared (the triggered flag is not touched). -/
def systemReset (s : Machine) : Machine :=
  resetSensorCount (setCameraLights false (setStatusLED LED_OFF
    (moveFlipperHome (closeTrapdoor s))))

/-- `changeState` of coin_machine_firmware.ino at time `now = millis()`.
A no-op when the new state equals the current one; on an actual transition it
records the previous state and the entry time, and entry into
`STATE_WAITING_FOR_COIN` additionally clears `processingCoin`, the detector
count and `lastError`. -/
def changeState (now : Nat) (newState : CoinMachineState) (s : Machine) :
    Machine :=
  if newState ≠ s.currentState then
    let s1 : Machine :=
      { s with
        previousState := s.currentState,
        currentState := newState,
        stateStartTime := now }
    if newState = STATE_WAITING_FOR_COIN then
      { resetSensorCount s1 with processingCoin := false, lastError := STATUS_OK }
    else
      s1
  else
    s

/-- `handleWaitingForCoin` of coin_machine_firmware.ino. -/
def handleWaitingForCoin (now : Nat) (s : Machine) : Machine :=
  let s := setStatusLED LED_READY s
  if isSensorTriggered s then
    clearSensorTrigger (changeState now STATE_COIN_DETECTED s)
  else
    s

/-- `handleCoinDetected` of coin_machine_firmware.ino.  The decision gate is
on the time in state (non-strict); the multiple-coin test is
`isMultipleCoinDetected`, which compares the window age strictly. -/
def handleCoinDetected (now : Nat) (s : Machine) : Machine :=
  let s := setStatusLED LED_PROCESSING s
  if MULTI_COIN_TIMEOUT ≤ now - s.stateStartTime then
    if isMultipleCoinDetected now s then
      resetSensorCount
        { changeState now STATE_REJECTING s with lastError := STATUS_MULTIPLE_COINS }
    else
      resetSensorCount (changeState now STATE_PROCESSING s)
  else
    s

/-- `handleProcessing` of coin_machine_firmware.ino. -/
def handleProcessing (now : Nat) (s : Machine) : Machine :=
  let s := setStatusLED LED_PROCESSING s
  if isSensorTriggered s then
    { changeState now STATE_REJECTING (resetSensorCount (clearSensorTrigger s)) with
      lastError := STATUS_COIN_DURING_PROCESSING }
  else if 500 ≤ now - s.stateStartTime then
    { changeState now STATE_PHOTOGRAPHING s with currentPhotoStep := 0 }
  else
    s

/-- `handleError` of coin_machine_firmware.ino at time `now`.  The `error`
argument only selects the text printed by the throttled report; the state
effects never depend on it: the handler never assigns `currentState` or
`lastError`.  The returned `Bool` records whether a report was emitted this
call.  After the count of reports reaches 3 it resets and re-enters
`STATE_WAITING_FOR_COIN` (a no-op `changeState` when already there). -/
def handleError (now : Nat) (error : StatusCode) (s : Machine) :
    Machine × Bool :=
  let _ := error
  let s := setStatusLED LED_ERROR s
  let rep := decide (5000 < now - s.lastErrorReport)
  let s :=
    if 5000 < now - s.lastErrorReport then
      { s with lastErrorReport := now, errorCount := s.errorCount + 1 }
    else
      s
  if 3 ≤ s.errorCount then
    (changeState now STATE_WAITING_FOR_COIN { systemReset s with errorCount := 0 },
      rep)
  else
    (s, rep)

/-- The result of one iteration of `loop`: the new machine state, the
argument of the `handleError` call made during the iteration (if any), and
whether that call emitted a throttled error report. -/
structure PollResult where
  m : Machine
  errInvoked : Option StatusCode
  reported : Bool
deriving DecidableEq, Repr

/-- `handlePhotographing` of coin_machine_firmware.ino at time `now`, where
`cap` is the result `captureAndSaveImage` would return if called this
iteration.  `timeInState` is read at the top of the function; the trailing
`PROCESSING_TIMEOUT` check runs unless a failed capture took the early
`return`. -/
def handlePhotographing (now : Nat) (cap : Bool) (s : Machine) : PollResult :=
  let s0 := setStatusLED LED_BUSY s
  let timeInState := now - s0.stateStartTime
  let trailing : Machine → PollResult := fun s1 =>
    if PROCESSING_TIMEOUT < timeInState then
      let p := handleError now STATUS_TIMEOUT_ERROR s1
      ⟨p.1, some STATUS_TIMEOUT_ERROR, p.2⟩
    else
      ⟨s1, none, false⟩
  if s0.currentPhotoStep = 0 then
    trailing
      { moveFlipperToSide1 s0 with flipperMoveTime := now, currentPhotoStep := 1 }
  else if s0.currentPhotoStep = 1 then
    if SERVO_MOVE_DELAY ≤ now - s0.flipperMoveTime then
      if cap then
        trailing { s0 with currentPhotoStep := 2, flipperMoveTime := now }
      else
        let p := handleError now STATUS_CAMERA_ERROR s0
        ⟨p.1, some STATUS_CAMERA_ERROR, p.2⟩
    else
      trailing s0
  else if s0.currentPhotoStep = 2 then
    if FLIPPER_PHOTO_DELAY ≤ now - s0.flipperMoveTime then
      trailing
        { moveFlipperToSide2 s0 with flipperMoveTime := now, currentPhotoStep := 3 }
    else
      trailing s0
  else if s0.currentPhotoStep = 3 then
    if SERVO_MOVE_DELAY ≤ now - s0.flipperMoveTime then
      if cap then
        trailing { s0 with currentPhotoStep := 4, flipperMoveTime := now }
      else
        let p := handleError now STATUS_CAMERA_ERROR s0
        ⟨p.1, some STATUS_CAMERA_ERROR, p.2⟩
    else
      trailing s0
  else if s0.currentPhotoStep = 4 then
    if FLIPPER_PHOTO_DELAY ≤ now - s0.flipperMoveTime then
      trailing
        { moveFlipperHome s0 with flipperMoveTime := now, currentPhotoStep := 5 }
    else
      trailing s0
  else if s0.currentPhotoStep = 5 then
    if SERVO_MOVE_DELAY ≤ now - s0.flipperMoveTime then
      trailing
        (changeState now STATE_WAITING_FOR_COIN { s0 with currentPhotoStep := 0 })
    else
      trailing s0
  else
    trailing s0

/-- `handleRejecting` of coin_machine_firmware.ino. -/
def handleRejecting (now : Nat) (s : Machine) : Machine :=
  let s := setStatusLED LED_ERROR s
  let timeInState := now - s.stateStartTime
  let s :=
    if timeInState < 100 then
      { openTrapdoor s with trapdoorOpenTime := now }
    else
      s
  if TRAPDOOR_OPEN_TIME ≤ timeInState then
    let s := closeTrapdoor s
    if TRAPDOOR_OPEN_TIME + 1000 ≤ timeInState then
      changeState now STATE_WAITING_FOR_COIN s
    else
      s
  else
    s

/-- One iteration of `loop` of coin_machine_firmware.ino at time
`now = millis()`: the strict `RESET_TIMEOUT` guard first (which calls
`handleError (STATUS_TIMEOUT_ERROR)` and returns, skipping the dispatcher),
then the state-machine dispatch. -/
def loopIter (now : Nat) (cap : Bool) (s : Machine) : PollResult :=
  if RESET_TIMEOUT < now - s.stateStartTime then
    let p := handleError now STATUS_TIMEOUT_ERROR s
    ⟨p.1, some STATUS_TIMEOUT_ERROR, p.2⟩
  else
    match s.currentState with
    | STATE_INIT => ⟨changeState now STATE_WAITING_FOR_COIN s, none, false⟩
    | STATE_WAITING_FOR_COIN => ⟨handleWaitingForCoin now s, none, false⟩
    | STATE_COIN_DETECTED => ⟨handleCoinDetected now s, none, false⟩
    | STATE_PROCESSING => ⟨handleProcessing now s, none, false⟩
    | STATE_PHOTOGRAPHING => handlePhotographing now cap s
    | STATE_REJECTING => ⟨handleRejecting now s, none, false⟩
    | STATE_ERROR =>
        let p := handleError now s.lastError s
        ⟨p.1, some s.lastError, p.2⟩

/-- An externally visible event: a sensor edge (interrupt context) or one
iteration of `loop` (polling context, with the capture outcome the camera
would deliver). -/
inductive MachineEvent where
  | edge (t : Nat)
  | poll (t : Nat) (cap : Bool)
deriving DecidableEq, Repr

/-- The time at which an event occurs. -/
def MachineEvent.time : MachineEvent → Nat
  | .edge t => t
  | .poll t _ => t

/-- Apply one event to the machine. -/
def stepEvent (e : MachineEvent) (s : Machine) : Machine :=
  match e with
  | .edge t => sensorInterrupt t s
  | .poll t cap => (loopIter t cap s).m

/-- Run a sequence of events. -/
def runEvents : List MachineEvent → Machine → Machine
  | [], s => s
  | e :: es, s => runEvents es (stepEvent e s)

/-- The global variables at their C initializers (sketch just loaded):
state `STATE_INIT`, all timestamps and counters zero, hardware at the
positions `initializeServos`/`initializeLEDs` leave them in. -/
def initMachine : Machine where
  currentState := STATE_INIT
  previousState := STATE_INIT
  stateStartTime := 0
  processingCoin := false
  currentPhotoStep := 0
  lastError := STATUS_OK
  errorCount := 0
  lastErrorReport := 0
  flipperMoveTime := 0
  trapdoorOpenTime := 0
  sensorTriggered := false
  lastSensorTrigger := 0
  sensorTriggerCount := 0
  sensorWindowStart := 0
  trapdoorPosition := TRAPDOOR_CLOSED
  flipperPosition := FLIPPER_HOME
  statusLED := LED_OFF
  cameraLights := false

/-- The machine right after a successful `setup`, whose last action is
`changeState(STATE_WAITING_FOR_COIN)`, at time `t0`. -/
def bootedAt (t0 : Nat) : Machine :=
  changeState t0 STATE_WAITING_FOR_COIN initMachine

/-- Apply a list of sensor edges (interrupt context only). -/
def runEdges : List Nat → Machine → Machine
  | [], s => s
  | t :: ts, s => runEdges ts (sensorInterrupt t s)

/-- `spacedBy gap prev ts`: each time in `ts` is at least `gap` after the one
before it (`prev` before the first). -/
def spacedBy (gap : Nat) : Nat → List Nat → Bool
  | _, [] => true
  | prev, u :: us => decide (prev + gap ≤ u) && spacedBy gap u us

/-- `timesLB lb evs`: the event times are nondecreasing and at least `lb`. -/
def timesLB (lb : Nat) : List MachineEvent → Bool
  | [] => true
  | e :: es => decide (lb ≤ e.time) && timesLB e.time es

/-- The time of the last event of `evs`, or `T` when `evs` is empty. -/
def lastTime (T : Nat) (evs : List MachineEvent) : Nat :=
  evs.foldl (fun _ e => e.time) T

/-- Reachability invariant used for the `Processing`-state trigger analysis:
timestamps do not lie in the future, and whenever the controller sits in
`CoinDetected` (resp. `Processing`) with the trigger flag down, the last
accepted edge is no later than the state entry (resp. at least
`MULTI_COIN_TIMEOUT` before it). -/
def Inv (s : Machine) (T : Nat) : Prop :=
  s.stateStartTime ≤ T ∧ s.lastSensorTrigger ≤ T ∧
  (s.currentState = STATE_COIN_DETECTED → s.sensorTriggered = false →
    s.lastSensorTrigger ≤ s.stateStartTime) ∧
  (s.currentState = STATE_PROCESSING → s.sensorTriggered = false →
    s.lastSensorTrigger + MULTI_COIN_TIMEOUT ≤ s.stateStartTime)

instance (s : Machine) (T : Nat) : Decidable (Inv s T) := by
  unfold Inv
  infer_instance

/-- Modelled from the spec's words (the property the claim denies): machine
`s` is stuck — it sits in `STATE_WAITING_FOR_COIN`, and no sequence of future
events occurring after `s.stateStartTime + RESET_TIMEOUT` ever changes its
state or its state-entry timestamp again: every later loop iteration takes
the timeout path, whose recovery `changeState` to `STATE_WAITING_FOR_COIN`
is a no-op, so the machine never again reacts to a coin. -/
def PermanentlyStuckInWaiting (s : Machine) : Prop :=
  s.currentState = STATE_WAITING_FOR_COIN ∧
  ∀ evs : List MachineEvent,
    (∀ e ∈ evs, s.stateStartTime + RESET_TIMEOUT < e.time) →
    (runEvents evs s).currentState = STATE_WAITING_FOR_COIN ∧
    (runEvents evs s).stateStartTime = s.stateStartTime

/-- The condition under which a `Photographing` iteration at time `now` with
capture outcome `cap` takes the failed-capture early `return` (skipping the
trailing `PROCESSING_TIMEOUT` check). -/
def PhotoCaptureFailurePoll (now : Nat) (cap : Bool) (s : Machine) : Prop :=
  (s.currentPhotoStep = 1 ∨ s.currentPhotoStep = 3) ∧
  SERVO_MOVE_DELAY ≤ now - s.flipperMoveTime ∧ cap = false

instance (now : Nat) (cap : Bool) (s : Machine) :
    Decidable (PhotoCaptureFailurePoll now cap s) := by
  unfold PhotoCaptureFailurePoll
  infer_instance

/-- A boot-reachable trace that leaves the machine in `STATE_PHOTOGRAPHING`
at photo step 1 with the servo-move delay already elapsed: one coin, a clean
single-coin decision, entry into photography, and the step-0 flipper move. -/
def captureFailTrace : List MachineEvent :=
  [.edge 100, .poll 110 true, .poll 1110 true, .poll 1610 true, .poll 1620 true]

/-- The machine produced by `captureFailTrace`. -/
def photographingStep1 : Machine :=
  runEvents captureFailTrace (bootedAt 0)

/-- A boot-reachable machine sitting in `STATE_PROCESSING` after a clean
single-coin decision (edge at 100, window decision at 1110). -/
def processingReady : Machine :=
  runEvents [.edge 100, .poll 110 true, .poll 1110 true] (bootedAt 0)

/-- A boot-reachable machine sitting in `STATE_REJECTING` after a
two-coin detection (edges at 2000 and 2060, decision at 3010). -/
def rejectingExample : Machine :=
  runEvents [.edge 2000, .poll 2000 true, .edge 2060, .poll 3010 true]
    (bootedAt 1500)

/-- A boot-reachable machine still in `STATE_WAITING_FOR_COIN` with the
trigger flag latched by an edge that no poll has consumed yet. -/
def waitingTriggered : Machine :=
  sensorInterrupt 100 (bootedAt 0)

/-- A boot-reachable machine sitting in `STATE_COIN_DETECTED` with two
counted edges (first edge and state entry at 2000, second edge at 2050). -/
def coinDetectedExample : Machine :=
  runEvents [.edge 2000, .poll 2000 true, .edge 2050] (bootedAt 1500)

/-- The machine after a failed hardware `setup`: `currentState` is assigned
`STATE_ERROR` directly and the status LED set to the error colour, with all
other globals still at their initializers. -/
def errorBoot : Machine :=
  setStatusLED LED_ERROR { initMachine with currentState := STATE_ERROR }

theorem changeState_noop (now : Nat) (st : CoinMachineState) (s : Machine)
    (h : st = s.currentState) : changeState now st s = s := by
  simp [changeState, h]

theorem changeState_to_waiting (now : Nat) (s : Machine)
    (h : s.currentState ≠ STATE_WAITING_FOR_COIN) :
    (changeState now STATE_WAITING_FOR_COIN s).currentState
        = STATE_WAITING_FOR_COIN ∧
    (changeState now STATE_WAITING_FOR_COIN s).lastError = STATUS_OK ∧
    (changeState now STATE_WAITING_FOR_COIN s).sensorTriggerCount = 0 ∧
    (changeState now STATE_WAITING_FOR_COIN s).processingCoin = false ∧
    (changeState now STATE_WAITING_FOR_COIN s).stateStartTime = now ∧
    (changeState now STATE_WAITING_FOR_COIN s).sensorTriggered
        = s.sensorTriggered := by
  have h1 : STATE_WAITING_FOR_COIN ≠ s.currentState := Ne.symm h
  simp [changeState, resetSensorCount, h1]

theorem changeState_lastErrorReport (now : Nat) (st : CoinMachineState)
    (s : Machine) : (changeState now st s).lastErrorReport = s.lastErrorReport := by
  simp only [changeState, resetSensorCount]
  split_ifs <;> rfl

theorem changeState_errorCount (now : Nat) (st : CoinMachineState)
    (s : Machine) : (changeState now st s).errorCount = s.errorCount := by
  simp only [changeState, resetSensorCount]
  split_ifs <;> rfl

theorem changeState_sensorTriggered (now : Nat) (st : CoinMachineState)
    (s : Machine) : (changeState now st s).sensorTriggered = s.sensorTriggered := by
  simp only [changeState, resetSensorCount]
  split_ifs <;> rfl

theorem changeState_lastSensorTrigger (now : Nat) (st : CoinMachineState)
    (s : Machine) :
    (changeState now st s).lastSensorTrigger = s.lastSensorTrigger := by
  simp only [changeState, resetSensorCount]
  split_ifs <;> rfl

theorem changeState_currentPhotoStep (now : Nat) (st : CoinMachineState)
    (s : Machine) :
    (changeState now st s).currentPhotoStep = s.currentPhotoStep := by
  simp only [changeState, resetSensorCount]
  split_ifs <;> rfl

theorem changeState_flipperMoveTime (now : Nat) (st : CoinMachineState)
    (s : Machine) :
    (changeState now st s).flipperMoveTime = s.flipperMoveTime := by
  simp only [changeState, resetSensorCount]
  split_ifs <;> rfl

theorem changeState_statusLED (now : Nat) (st : CoinMachineState)
    (s : Machine) : (changeState now st s).statusLED = s.statusLED := by
  simp only [changeState, resetSensorCount]
  split_ifs <;> rfl

theorem changeState_trapdoorPosition (now : Nat) (st : CoinMachineState)
    (s : Machine) :
    (changeState now st s).trapdoorPosition = s.trapdoorPosition := by
  simp only [changeState, resetSensorCount]
  split_ifs <;> rfl

theorem changeState_flipperPosition (now : Nat) (st : CoinMachineState)
    (s : Machine) :
    (changeState now st s).flipperPosition = s.flipperPosition := by
  simp only [changeState, resetSensorCount]
  split_ifs <;> rfl

theorem changeState_cameraLights (now : Nat) (st : CoinMachineState)
    (s : Machine) : (changeState now st s).cameraLights = s.cameraLights := by
  simp only [changeState, resetSensorCount]
  split_ifs <;> rfl

theorem changeState_waiting_currentState (now : Nat) (s : Machine) :
    (changeState now STATE_WAITING_FOR_COIN s).currentState
      = STATE_WAITING_FOR_COIN := by
  by_cases h : STATE_WAITING_FOR_COIN = s.currentState
  · rw [changeState_noop now _ s h]
    exact h.symm
  · simp only [changeState, resetSensorCount]
    rw [if_pos h]
    simp

theorem changeState_waiting_lastError (now : Nat) (s : Machine) :
    (changeState now STATE_WAITING_FOR_COIN s).lastError
      = if s.currentState = STATE_WAITING_FOR_COIN then s.lastError
        else STATUS_OK := by
  by_cases h : STATE_WAITING_FOR_COIN = s.currentState
  · rw [changeState_noop now _ s h, if_pos h.symm]
  · rw [if_neg (fun hh => h hh.symm)]
    simp only [changeState, resetSensorCount]
    rw [if_pos h]
    simp

theorem changeState_waiting_stateStartTime (now : Nat) (s : Machine) :
    (changeState now STATE_WAITING_FOR_COIN s).stateStartTime
      = if s.currentState = STATE_WAITING_FOR_COIN then s.stateStartTime
        else now := by
  by_cases h : STATE_WAITING_FOR_COIN = s.currentState
  · rw [changeState_noop now _ s h, if_pos h.symm]
  · rw [if_neg (fun hh => h hh.symm)]
    simp only [changeState, resetSensorCount]
    rw [if_pos h]
    simp

theorem changeState_waiting_sensorTriggerCount (now : Nat) (s : Machine) :
    (changeState now STATE_WAITING_FOR_COIN s).sensorTriggerCount
      = if s.currentState = STATE_WAITING_FOR_COIN then s.sensorTriggerCount
        else 0 := by
  by_cases h : STATE_WAITING_FOR_COIN = s.currentState
  · rw [changeState_noop now _ s h, if_pos h.symm]
  · rw [if_neg (fun hh => h hh.symm)]
    simp only [changeState, resetSensorCount]
    rw [if_pos h]
    simp

theorem changeState_waiting_processingCoin (now : Nat) (s : Machine) :
    (changeState now STATE_WAITING_FOR_COIN s).processingCoin
      = if s.currentState = STATE_WAITING_FOR_COIN then s.processingCoin
        else false := by
  by_cases h : STATE_WAITING_FOR_COIN = s.currentState
  · rw [changeState_noop now _ s h, if_pos h.symm]
  · rw [if_neg (fun hh => h hh.symm)]
    simp only [changeState, resetSensorCount]
    rw [if_pos h]
    simp

theorem handleError_snd (now : Nat) (err : StatusCode) (s : Machine) :
    (handleError now err s).2 = decide (5000 < now - s.lastErrorReport) := by
  simp only [handleError, setStatusLED]
  split_ifs <;> rfl

theorem handleError_sensorTriggered (now : Nat) (err : StatusCode) (s : Machine) :
    (handleError now err s).1.sensorTriggered = s.sensorTriggered := by
  simp only [handleError, setStatusLED]
  split_ifs <;>
    simp [changeState_sensorTriggered, systemReset, resetSensorCount,
      setCameraLights, setStatusLED, moveFlipperHome, closeTrapdoor]

theorem handleError_lastSensorTrigger (now : Nat) (err : StatusCode) (s : Machine) :
    (handleError now err s).1.lastSensorTrigger = s.lastSensorTrigger := by
  simp only [handleError, setStatusLED]
  split_ifs <;>
    simp [changeState_lastSensorTrigger, systemReset, resetSensorCount,
      setCameraLights, setStatusLED, moveFlipperHome, closeTrapdoor]

theorem handleError_currentPhotoStep (now : Nat) (err : StatusCode) (s : Machine) :
    (handleError now err s).1.currentPhotoStep = s.currentPhotoStep := by
  simp only [handleError, setStatusLED]
  split_ifs <;>
    simp [changeState_currentPhotoStep, systemReset, resetSensorCount,
      setCameraLights, setStatusLED, moveFlipperHome, closeTrapdoor]

theorem handleError_flipperMoveTime (now : Nat) (err : StatusCode) (s : Machine) :
    (handleError now err s).1.flipperMoveTime = s.flipperMoveTime := by
  simp only [handleError, setStatusLED]
  split_ifs <;>
    simp [changeState_flipperMoveTime, systemReset, resetSensorCount,
      setCameraLights, setStatusLED, moveFlipperHome, closeTrapdoor]

theorem handleError_lastErrorReport (now : Nat) (err : StatusCode) (s : Machine) :
    (handleError now err s).1.lastErrorReport
      = if 5000 < now - s.lastErrorReport then now else s.lastErrorReport := by
  simp only [handleError, setStatusLED]
  split_ifs <;>
    simp [changeState_lastErrorReport, systemReset, resetSensorCount,
      setCameraLights, setStatusLED, moveFlipperHome, closeTrapdoor]

theorem handleError_no_recovery (now : Nat) (err : StatusCode) (s : Machine)
    (h : (if 5000 < now - s.lastErrorReport
            then s.errorCount + 1 else s.errorCount) < 3) :
    (handleError now err s).1.currentState = s.currentState ∧
    (handleError now err s).1.stateStartTime = s.stateStartTime ∧
    (handleError now err s).1.lastError = s.lastError ∧
    (handleError now err s).1.sensorTriggerCount = s.sensorTriggerCount ∧
    (handleError now err s).1.sensorWindowStart = s.sensorWindowStart ∧
    (handleError now err s).1.processingCoin = s.processingCoin ∧
    (handleError now err s).1.errorCount
      = (if 5000 < now - s.lastErrorReport then s.errorCount + 1
          else s.errorCount) := by
  simp only [handleError, setStatusLED]
  by_cases hrep : 5000 < now - s.lastErrorReport
  · simp only [hrep, if_true] at h ⊢
    rw [if_neg (by simpa using Nat.not_le.mpr h)]
    simp
  · simp only [hrep, if_false] at h ⊢
    rw [if_neg (by simpa using Nat.not_le.mpr h)]
    simp

theorem handleError_recovery (now : Nat) (err : StatusCode) (s : Machine)
    (h : 3 ≤ (if 5000 < now - s.lastErrorReport
            then s.errorCount + 1 else s.errorCount)) :
    (handleError now err s).1.currentState = STATE_WAITING_FOR_COIN ∧
    (handleError now err s).1.errorCount = 0 ∧
    (handleError now err s).1.sensorTriggerCount = 0 ∧
    (handleError now err s).1.trapdoorPosition = TRAPDOOR_CLOSED ∧
    (handleError now err s).1.flipperPosition = FLIPPER_HOME ∧
    (handleError now err s).1.statusLED = LED_OFF ∧
    (handleError now err s).1.cameraLights = false ∧
    (handleError now err s).1.lastError
      = (if s.currentState = STATE_WAITING_FOR_COIN then s.lastError
          else STATUS_OK) ∧
    (handleError now err s).1.processingCoin
      = (if s.currentState = STATE_WAITING_FOR_COIN then s.processingCoin
          else false) ∧
    (handleError now err s).1.stateStartTime
      = (if s.currentState = STATE_WAITING_FOR_COIN then s.stateStartTime
          else now) := by
  simp only [handleError, setStatusLED]
  by_cases hrep : 5000 < now - s.lastErrorReport
  · simp only [hrep, if_true] at h ⊢
    rw [if_pos (by simpa using h)]
    simp [changeState_waiting_currentState, changeState_errorCount,
      changeState_waiting_sensorTriggerCount, changeState_trapdoorPosition,
      changeState_flipperPosition, changeState_statusLED,
      changeState_cameraLights, changeState_waiting_lastError,
      changeState_waiting_processingCoin, changeState_waiting_stateStartTime,
      systemReset, resetSensorCount, setCameraLights, setStatusLED,
      moveFlipperHome, closeTrapdoor]
  · simp only [hrep, if_false] at h ⊢
    rw [if_pos (by simpa using h)]
    simp [changeState_waiting_currentState, changeState_errorCount,
      changeState_waiting_sensorTriggerCount, changeState_trapdoorPosition,
      changeState_flipperPosition, changeState_statusLED,
      changeState_cameraLights, changeState_waiting_lastError,
      changeState_waiting_processingCoin, changeState_waiting_stateStartTime,
      systemReset, resetSensorCount, setCameraLights, setStatusLED,
      moveFlipperHome, closeTrapdoor]

theorem changeState_enter_currentState (now : Nat) (st : CoinMachineState)
    (s : Machine) (h : st ≠ s.currentState) :
    (changeState now st s).currentState = st := by
  simp only [changeState, resetSensorCount]
  rw [if_pos h]
  split_ifs <;> rfl

theorem changeState_enter_stateStartTime (now : Nat) (st : CoinMachineState)
    (s : Machine) (h : st ≠ s.currentState) :
    (changeState now st s).stateStartTime = now := by
  simp only [changeState, resetSensorCount]
  rw [if_pos h]
  split_ifs <;> rfl

theorem loopIter_timeout (now : Nat) (cap : Bool) (s : Machine)
    (h : RESET_TIMEOUT < now - s.stateStartTime) :
    loopIter now cap s =
      ⟨(handleError now STATUS_TIMEOUT_ERROR s).1, some STATUS_TIMEOUT_ERROR,
        (handleError now STATUS_TIMEOUT_ERROR s).2⟩ := by
  simp [loopIter, h]

theorem loopIter_init (now : Nat) (cap : Bool) (s : Machine)
    (h : ¬(RESET_TIMEOUT < now - s.stateStartTime))
    (hs : s.currentState = STATE_INIT) :
    loopIter now cap s =
      ⟨changeState now STATE_WAITING_FOR_COIN s, none, false⟩ := by
  simp [loopIter, h, hs]

theorem loopIter_waiting (now : Nat) (cap : Bool) (s : Machine)
    (h : ¬(RESET_TIMEOUT < now - s.stateStartTime))
    (hs : s.currentState = STATE_WAITING_FOR_COIN) :
    loopIter now cap s = ⟨handleWaitingForCoin now s, none, false⟩ := by
  simp [loopIter, h, hs]

theorem loopIter_coinDetected (now : Nat) (cap : Bool) (s : Machine)
    (h : ¬(RESET_TIMEOUT < now - s.stateStartTime))
    (hs : s.currentState = STATE_COIN_DETECTED) :
    loopIter now cap s = ⟨handleCoinDetected now s, none, false⟩ := by
  simp [loopIter, h, hs]

theorem loopIter_processing (now : Nat) (cap : Bool) (s : Machine)
    (h : ¬(RESET_TIMEOUT < now - s.stateStartTime))
    (hs : s.currentState = STATE_PROCESSING) :
    loopIter now cap s = ⟨handleProcessing now s, none, false⟩ := by
  simp [loopIter, h, hs]

theorem loopIter_photographing (now : Nat) (cap : Bool) (s : Machine)
    (h : ¬(RESET_TIMEOUT < now - s.stateStartTime))
    (hs : s.currentState = STATE_PHOTOGRAPHING) :
    loopIter now cap s = handlePhotographing now cap s := by
  simp [loopIter, h, hs]

theorem loopIter_rejecting (now : Nat) (cap : Bool) (s : Machine)
    (h : ¬(RESET_TIMEOUT < now - s.stateStartTime))
    (hs : s.currentState = STATE_REJECTING) :
    loopIter now cap s = ⟨handleRejecting now s, none, false⟩ := by
  simp [loopIter, h, hs]

theorem loopIter_error (now : Nat) (cap : Bool) (s : Machine)
    (h : ¬(RESET_TIMEOUT < now - s.stateStartTime))
    (hs : s.currentState = STATE_ERROR) :
    loopIter now cap s =
      ⟨(handleError now s.lastError s).1, some s.lastError,
        (handleError now s.lastError s).2⟩ := by
  simp [loopIter, h, hs]

theorem handleError_enters_waiting (now : Nat) (err : StatusCode) (s : Machine)
    (h : s.currentState ≠ STATE_WAITING_FOR_COIN)
    (h2 : (handleError now err s).1.currentState = STATE_WAITING_FOR_COIN) :
    (handleError now err s).1.lastError = STATUS_OK ∧
    (handleError now err s).1.sensorTriggerCount = 0 ∧
    (handleError now err s).1.processingCoin = false := by
  by_cases h3 : 3 ≤ (if 5000 < now - s.lastErrorReport
      then s.errorCount + 1 else s.errorCount)
  · have R := handleError_recovery now err s h3
    refine ⟨?_, R.2.2.1, ?_⟩
    · rw [R.2.2.2.2.2.2.2.1, if_neg h]
    · rw [R.2.2.2.2.2.2.2.2.1, if_neg h]
  · have N := handleError_no_recovery now err s (by omega)
    rw [N.1] at h2
    exact absurd h2 h

theorem handleError_waiting_preserves (now : Nat) (err : StatusCode)
    (s : Machine) (hw : s.currentState = STATE_WAITING_FOR_COIN)
    (he : s.lastError = STATUS_OK) (hc : s.sensorTriggerCount = 0)
    (hp : s.processingCoin = false) :
    (handleError now err s).1.currentState = STATE_WAITING_FOR_COIN ∧
    (handleError now err s).1.lastError = STATUS_OK ∧
    (handleError now err s).1.sensorTriggerCount = 0 ∧
    (handleError now err s).1.processingCoin = false := by
  by_cases h3 : 3 ≤ (if 5000 < now - s.lastErrorReport
      then s.errorCount + 1 else s.errorCount)
  · have R := handleError_recovery now err s h3
    refine ⟨R.1, ?_, R.2.2.1, ?_⟩
    · rw [R.2.2.2.2.2.2.2.1, if_pos hw, he]
    · rw [R.2.2.2.2.2.2.2.2.1, if_pos hw, hp]
  · have N := handleError_no_recovery now err s (by omega)
    rw [N.1, N.2.2.1, N.2.2.2.1, N.2.2.2.2.2.1]
    exact ⟨hw, he, hc, hp⟩

theorem isMultipleCoinDetected_setStatusLED (now : Nat) (c : RGBColor)
    (s : Machine) :
    isMultipleCoinDetected now (setStatusLED c s) = isMultipleCoinDetected now s :=
  rfl

theorem handleCoinDetected_wait (now : Nat) (s : Machine)
    (h : ¬(MULTI_COIN_TIMEOUT ≤ now - s.stateStartTime)) :
    handleCoinDetected now s = setStatusLED LED_PROCESSING s := by
  simp [handleCoinDetected, setStatusLED, h]

theorem changeState_enter_nonwaiting_lastError (now : Nat)
    (st : CoinMachineState) (s : Machine) (h : st ≠ s.currentState)
    (h2 : st ≠ STATE_WAITING_FOR_COIN) :
    (changeState now st s).lastError = s.lastError := by
  simp only [changeState, resetSensorCount]
  rw [if_pos h, if_neg h2]

theorem handleCoinDetected_decision (now : Nat) (s : Machine)
    (hs : s.currentState = STATE_COIN_DETECTED)
    (hgate : MULTI_COIN_TIMEOUT ≤ now - s.stateStartTime) :
    (isMultipleCoinDetected now s = true →
      (handleCoinDetected now s).currentState = STATE_REJECTING ∧
      (handleCoinDetected now s).lastError = STATUS_MULTIPLE_COINS) ∧
    (isMultipleCoinDetected now s = false →
      (handleCoinDetected now s).currentState = STATE_PROCESSING ∧
      (handleCoinDetected now s).lastError = s.lastError) ∧
    (handleCoinDetected now s).sensorTriggerCount = 0 ∧
    (handleCoinDetected now s).sensorWindowStart = 0 ∧
    (handleCoinDetected now s).stateStartTime = now ∧
    (handleCoinDetected now s).sensorTriggered = s.sensorTriggered := by
  have hgate2 :
      MULTI_COIN_TIMEOUT ≤ now - (setStatusLED LED_PROCESSING s).stateStartTime :=
    hgate
  have hcs : (setStatusLED LED_PROCESSING s).currentState = STATE_COIN_DETECTED :=
    hs
  simp only [handleCoinDetected, isMultipleCoinDetected_setStatusLED,
    if_pos hgate2]
  by_cases hm : isMultipleCoinDetected now s = true
  · rw [if_pos hm]
    have hne : STATE_REJECTING ≠ (setStatusLED LED_PROCESSING s).currentState := by
      rw [hcs]
      decide
    refine ⟨fun _ => ⟨?_, ?_⟩, fun hm2 => absurd hm (by simp [hm2]), ?_, ?_, ?_, ?_⟩
    · show (resetSensorCount _).currentState = STATE_REJECTING
      simpa [resetSensorCount] using
        changeState_enter_currentState now STATE_REJECTING
          (setStatusLED LED_PROCESSING s) hne
    · rfl
    · rfl
    · rfl
    · show (resetSensorCount _).stateStartTime = now
      simpa [resetSensorCount] using
        changeState_enter_stateStartTime now STATE_REJECTING
          (setStatusLED LED_PROCESSING s) hne
    · show (resetSensorCount _).sensorTriggered = s.sensorTriggered
      simpa [resetSensorCount] using
        changeState_sensorTriggered now STATE_REJECTING
          (setStatusLED LED_PROCESSING s)
  · rw [if_neg hm]
    have hne : STATE_PROCESSING ≠ (setStatusLED LED_PROCESSING s).currentState := by
      rw [hcs]
      decide
    refine ⟨fun hm2 => absurd hm2 hm, fun _ => ⟨?_, ?_⟩, ?_, ?_, ?_, ?_⟩
    · show (resetSensorCount _).currentState = STATE_PROCESSING
      simpa [resetSensorCount] using
        changeState_enter_currentState now STATE_PROCESSING
          (setStatusLED LED_PROCESSING s) hne
    · show (resetSensorCount _).lastError = s.lastError
      simpa [resetSensorCount] using
        changeState_enter_nonwaiting_lastError now STATE_PROCESSING
          (setStatusLED LED_PROCESSING s) hne (by decide)
    · rfl
    · rfl
    · show (resetSensorCount _).stateStartTime = now
      simpa [resetSensorCount] using
        changeState_enter_stateStartTime now STATE_PROCESSING
          (setStatusLED LED_PROCESSING s) hne
    · show (resetSensorCount _).sensorTriggered = s.sensorTriggered
      simpa [resetSensorCount] using
        changeState_sensorTriggered now STATE_PROCESSING
          (setStatusLED LED_PROCESSING s)

theorem changeState_enter_nonwaiting_sensorTriggerCount (now : Nat)
    (st : CoinMachineState) (s : Machine) (h : st ≠ s.currentState)
    (h2 : st ≠ STATE_WAITING_FOR_COIN) :
    (changeState now st s).sensorTriggerCount = s.sensorTriggerCount := by
  simp only [changeState, resetSensorCount]
  rw [if_pos h, if_neg h2]

theorem handleProcessing_triggered (now : Nat) (s : Machine)
    (hs : s.currentState = STATE_PROCESSING) (htr : s.sensorTriggered = true) :
    (handleProcessing now s).currentState = STATE_REJECTING ∧
    (handleProcessing now s).lastError = STATUS_COIN_DURING_PROCESSING ∧
    (handleProcessing now s).sensorTriggerCount = 0 ∧
    (handleProcessing now s).sensorTriggered = false ∧
    (handleProcessing now s).stateStartTime = now := by
  have hc : isSensorTriggered (setStatusLED LED_PROCESSING s) = true := htr
  have hne : STATE_REJECTING ≠
      (resetSensorCount
        (clearSensorTrigger (setStatusLED LED_PROCESSING s))).currentState := by
    show STATE_REJECTING ≠ s.currentState
    rw [hs]
    decide
  simp only [handleProcessing]
  rw [if_pos hc]
  refine ⟨?_, rfl, ?_, ?_, ?_⟩
  · show (changeState _ _ _).currentState = STATE_REJECTING
    exact changeState_enter_currentState now STATE_REJECTING _ hne
  · show (changeState _ _ _).sensorTriggerCount = 0
    rw [changeState_enter_nonwaiting_sensorTriggerCount now STATE_REJECTING _
      hne (by decide)]
    rfl
  · show (changeState _ _ _).sensorTriggered = false
    rw [changeState_sensorTriggered]
    rfl
  · show (changeState _ _ _).stateStartTime = now
    exact changeState_enter_stateStartTime now STATE_REJECTING _ hne

theorem handleProcessing_settle (now : Nat) (s : Machine)
    (hs : s.currentState = STATE_PROCESSING) (htr : s.sensorTriggered = false)
    (hd : 500 ≤ now - s.stateStartTime) :
    (handleProcessing now s).currentState = STATE_PHOTOGRAPHING ∧
    (handleProcessing now s).currentPhotoStep = 0 ∧
    (handleProcessing now s).stateStartTime = now ∧
    (handleProcessing now s).lastError = s.lastError := by
  have hc : ¬(isSensorTriggered (setStatusLED LED_PROCESSING s) = true) := by
    show ¬(s.sensorTriggered = true)
    simp [htr]
  have hd2 : 500 ≤ now - (setStatusLED LED_PROCESSING s).stateStartTime := hd
  have hne : STATE_PHOTOGRAPHING ≠
      (setStatusLED LED_PROCESSING s).currentState := by
    show STATE_PHOTOGRAPHING ≠ s.currentState
    rw [hs]
    decide
  simp only [handleProcessing]
  rw [if_neg hc, if_pos hd2]
  refine ⟨?_, rfl, ?_, ?_⟩
  · show (changeState _ _ _).currentState = STATE_PHOTOGRAPHING
    exact changeState_enter_currentState now STATE_PHOTOGRAPHING _ hne
  · show (changeState _ _ _).stateStartTime = now
    exact changeState_enter_stateStartTime now STATE_PHOTOGRAPHING _ hne
  · show (changeState _ _ _).lastError = s.lastError
    exact changeState_enter_nonwaiting_lastError now STATE_PHOTOGRAPHING _
      hne (by decide)

theorem handleProcessing_wait (now : Nat) (s : Machine)
    (htr : s.sensorTriggered = false)
    (hd : ¬(500 ≤ now - s.stateStartTime)) :
    handleProcessing now s = setStatusLED LED_PROCESSING s := by
  have hc : ¬(isSensorTriggered (setStatusLED LED_PROCESSING s) = true) := by
    show ¬(s.sensorTriggered = true)
    simp [htr]
  have hd2 : ¬(500 ≤ now - (setStatusLED LED_PROCESSING s).stateStartTime) := hd
  simp only [handleProcessing]
  rw [if_neg hc, if_neg hd2]

theorem handleRejecting_enters_waiting (now : Nat) (s : Machine)
    (hs : s.currentState ≠ STATE_WAITING_FOR_COIN)
    (h2 : (handleRejecting now s).currentState = STATE_WAITING_FOR_COIN) :
    (handleRejecting now s).lastError = STATUS_OK ∧
    (handleRejecting now s).sensorTriggerCount = 0 ∧
    (handleRejecting now s).processingCoin = false := by
  simp only [handleRejecting, setStatusLED, openTrapdoor, closeTrapdoor]
    at h2 ⊢
  split_ifs at h2 ⊢ <;>
    first
      | exact absurd h2 hs
      | (refine ⟨(changeState_to_waiting now _ ?_).2.1,
            (changeState_to_waiting now _ ?_).2.2.1,
            (changeState_to_waiting now _ ?_).2.2.2.1⟩ <;> exact hs)

theorem handleError_after_enter_waiting (now now2 : Nat) (err : StatusCode)
    (s : Machine) (h : s.currentState ≠ STATE_WAITING_FOR_COIN) :
    (handleError now2 err
        (changeState now STATE_WAITING_FOR_COIN s)).1.lastError = STATUS_OK ∧
    (handleError now2 err
        (changeState now STATE_WAITING_FOR_COIN s)).1.sensorTriggerCount = 0 ∧
    (handleError now2 err
        (changeState now STATE_WAITING_FOR_COIN s)).1.processingCoin = false := by
  have H := changeState_to_waiting now s h
  have K := handleError_waiting_preserves now2 err _ H.1 H.2.1 H.2.2.1 H.2.2.2.1
  exact ⟨K.2.1, K.2.2.1, K.2.2.2⟩

theorem handlePhotographing_capture_fail (now : Nat) (cap : Bool) (s : Machine)
    (hstep : s.currentPhotoStep = 1 ∨ s.currentPhotoStep = 3)
    (hd : SERVO_MOVE_DELAY ≤ now - s.flipperMoveTime)
    (hcap : cap = false)
    (hec : (if 5000 < now - s.lastErrorReport then s.errorCount + 1
        else s.errorCount) < 3) :
    (handlePhotographing now cap s).errInvoked = some STATUS_CAMERA_ERROR ∧
    (handlePhotographing now cap s).m.currentState = s.currentState ∧
    (handlePhotographing now cap s).m.currentPhotoStep = s.currentPhotoStep ∧
    (handlePhotographing now cap s).m.lastError = s.lastError := by
  have hcap2 : ¬(cap = true) := by simp [hcap]
  have N := handleError_no_recovery now STATUS_CAMERA_ERROR
    (setStatusLED LED_BUSY s) hec
  rcases hstep with h1 | h3
  · simp only [handlePhotographing, setStatusLED]
    rw [if_neg (by omega : ¬(s.currentPhotoStep = 0)), if_pos h1, if_pos hd,
      if_neg hcap2]
    exact ⟨rfl, N.1, handleError_currentPhotoStep now STATUS_CAMERA_ERROR _,
      N.2.2.1⟩
  · simp only [handlePhotographing, setStatusLED]
    rw [if_neg (by omega : ¬(s.currentPhotoStep = 0)),
      if_neg (by omega : ¬(s.currentPhotoStep = 1)),
      if_neg (by omega : ¬(s.currentPhotoStep = 2)), if_pos h3, if_pos hd,
      if_neg hcap2]
    exact ⟨rfl, N.1, handleError_currentPhotoStep now STATUS_CAMERA_ERROR _,
      N.2.2.1⟩

theorem handlePhotographing_timeout_invoked (now : Nat) (cap : Bool)
    (s : Machine) (htis : PROCESSING_TIMEOUT < now - s.stateStartTime)
    (hnf : ¬PhotoCaptureFailurePoll now cap s) :
    (handlePhotographing now cap s).errInvoked = some STATUS_TIMEOUT_ERROR := by
  simp only [handlePhotographing, setStatusLED, moveFlipperToSide1,
    moveFlipperToSide2, moveFlipperHome]
  split_ifs with h1 h2 h3 h4 h5 h6 h7 h8 h9 h10 h11 h12 h13 h14 h15 h16 <;>
    first
      | rfl
      | (exact absurd htis (by assumption))
      | (exfalso
         apply hnf
         refine ⟨?_, by assumption, by simp_all⟩
         first | exact Or.inl (by assumption) | exact Or.inr (by assumption))

set_option maxHeartbeats 2000000 in
theorem handlePhotographing_enters_waiting (now : Nat) (cap : Bool)
    (s : Machine) (hs : s.currentState = STATE_PHOTOGRAPHING)
    (h2 : (handlePhotographing now cap s).m.currentState
        = STATE_WAITING_FOR_COIN) :
    (handlePhotographing now cap s).m.lastError = STATUS_OK ∧
    (handlePhotographing now cap s).m.sensorTriggerCount = 0 ∧
    (handlePhotographing now cap s).m.processingCoin = false := by
  have hsW : s.currentState ≠ STATE_WAITING_FOR_COIN := by
    rw [hs]
    decide
  simp only [handlePhotographing] at h2 ⊢
  split_ifs at h2 ⊢ <;>
    first
      | exact absurd h2 hsW
      | exact handleError_enters_waiting now _ _ hsW h2
      | (refine ⟨(changeState_to_waiting now _ ?_).2.1,
            (changeState_to_waiting now _ ?_).2.2.1,
            (changeState_to_waiting now _ ?_).2.2.2.1⟩ <;> exact hsW)
      | (refine ⟨(handleError_after_enter_waiting now now _ _ ?_).1,
            (handleError_after_enter_waiting now now _ _ ?_).2.1,
            (handleError_after_enter_waiting now now _ _ ?_).2.2⟩ <;> exact hsW)

/-- C1 (counterexample): booted into `WaitingForCoin` at time 0, the loop
iteration at time 30001 has spent at least `RESET_TIMEOUT` in the state, yet
the machine does not transition to `STATE_ERROR` (it stays in
`STATE_WAITING_FOR_COIN`) and `lastError` does not become
`STATUS_TIMEOUT_ERROR` (it stays `STATUS_OK`): `handleError` is called with
`STATUS_TIMEOUT_ERROR` but never assigns the state or the error code. -/
theorem c1_counterexample :
    RESET_TIMEOUT ≤ 30001 - (bootedAt 0).stateStartTime ∧
    (bootedAt 0).currentState = STATE_WAITING_FOR_COIN ∧
    (loopIter 30001 true (bootedAt 0)).errInvoked = some STATUS_TIMEOUT_ERROR ∧
    (loopIter 30001 true (bootedAt 0)).m.currentState ≠ STATE_ERROR ∧
    (loopIter 30001 true (bootedAt 0)).m.currentState = STATE_WAITING_FOR_COIN ∧
    (loopIter 30001 true (bootedAt 0)).m.lastError ≠ STATUS_TIMEOUT_ERROR := by
  decide

/-- C2 (counterexample): from boot, a coin is accepted and photography
reaches step 1; the capture at time 2200 fails, yet the machine does not
transition to `STATE_ERROR`: it stays in `STATE_PHOTOGRAPHING` at the same
step 1 with `lastError` still `STATUS_OK` (so the very same capture step is
retried on the next poll, not abandoned). -/
theorem c2_counterexample :
    photographingStep1.currentState = STATE_PHOTOGRAPHING ∧
    photographingStep1.currentPhotoStep = 1 ∧
    (loopIter 2200 false photographingStep1).errInvoked = some STATUS_CAMERA_ERROR ∧
    (loopIter 2200 false photographingStep1).m.currentState ≠ STATE_ERROR ∧
    (loopIter 2200 false photographingStep1).m.currentState = STATE_PHOTOGRAPHING ∧
    (loopIter 2200 false photographingStep1).m.currentPhotoStep = 1 ∧
    (loopIter 2200 false photographingStep1).m.lastError ≠ STATUS_CAMERA_ERROR := by
  decide

/-- C3 (counterexample): a boot-reachable `CoinDetected` configuration with
edge count 2 whose window age at the decision poll is exactly
`MULTI_COIN_TIMEOUT` (time since the first edge has reached the window
timeout, as the claim requires), yet the controller transitions to
`STATE_PROCESSING`, not `STATE_REJECTING`: `isMultipleCoinDetected` demands a
strictly greater window age. -/
theorem c3_counterexample :
    (runEvents [.edge 2000, .poll 2000 true, .edge 2050] (bootedAt 1500)).currentState
        = STATE_COIN_DETECTED ∧
    (runEvents [.edge 2000, .poll 2000 true, .edge 2050] (bootedAt 1500)).sensorTriggerCount
        = 2 ∧
    3000 -
        (runEvents [.edge 2000, .poll 2000 true, .edge 2050] (bootedAt 1500)).sensorWindowStart
        = MULTI_COIN_TIMEOUT ∧
    MULTI_COIN_THRESHOLD ≤
        (runEvents [.edge 2000, .poll 2000 true, .edge 2050] (bootedAt 1500)).sensorTriggerCount ∧
    (runEvents [.edge 2000, .poll 2000 true, .edge 2050, .poll 3000 true]
        (bootedAt 1500)).currentState = STATE_PROCESSING ∧
    (runEvents [.edge 2000, .poll 2000 true, .edge 2050, .poll 3000 true]
        (bootedAt 1500)).currentState ≠ STATE_REJECTING := by
  decide

/-- C4 (counterexample): for edges at times 2000 and 2040 (40 ms apart, the
claim's `t=0` and `t=40ms`), the second edge falls inside the 50 ms
`SENSOR_DEBOUNCE_TIME` and is dropped: the count when the window closes is 1,
not 2, and the decision poll sends the controller to `STATE_PROCESSING`, not
`STATE_REJECTING`. -/
theorem c4_counterexample :
    2040 - 2000 < SENSOR_DEBOUNCE_TIME ∧
    (runEvents [.edge 2000, .poll 2000 true, .edge 2040] (bootedAt 1500)).sensorTriggerCount
        = 1 ∧
    (runEvents [.edge 2000, .poll 2000 true, .edge 2040, .poll 3010 true]
        (bootedAt 1500)).currentState = STATE_PROCESSING ∧
    (runEvents [.edge 2000, .poll 2000 true, .edge 2040, .poll 3010 true]
        (bootedAt 1500)).currentState ≠ STATE_REJECTING := by
  decide

/-- C4 (amended): with edges 40 ms apart the second edge is debounced
(count 1, controller goes to `Processing`); two edges at least
`SENSOR_DEBOUNCE_TIME` apart (here 60 ms) do give count 2 and `Rejecting`
with `MultipleCoins`; a single edge gives count 1 and `Processing`. -/
theorem c4_amended_debounce_example :
    ((runEvents [.edge 2000, .poll 2000 true, .edge 2040] (bootedAt 1500)).sensorTriggerCount
        = 1 ∧
      (runEvents [.edge 2000, .poll 2000 true, .edge 2040, .poll 3010 true]
        (bootedAt 1500)).currentState = STATE_PROCESSING) ∧
    ((runEvents [.edge 2000, .poll 2000 true, .edge 2060] (bootedAt 1500)).sensorTriggerCount
        = 2 ∧
      (runEvents [.edge 2000, .poll 2000 true, .edge 2060, .poll 3010 true]
        (bootedAt 1500)).currentState = STATE_REJECTING ∧
      (runEvents [.edge 2000, .poll 2000 true, .edge 2060, .poll 3010 true]
        (bootedAt 1500)).lastError = STATUS_MULTIPLE_COINS) ∧
    ((runEvents [.edge 2000, .poll 2000 true] (bootedAt 1500)).sensorTriggerCount = 1 ∧
      (runEvents [.edge 2000, .poll 2000 true, .poll 3010 true]
        (bootedAt 1500)).currentState = STATE_PROCESSING) := by
  decide

/-- C5 (counterexample): edges at 2000, 2040 and 2080 each arrive less than
the 50 ms debounce interval after the previous edge, yet two of them are
counted, not one: the debounce clock restarts only at accepted edges, so the
edge at 2080 (80 ms after the last accepted edge) passes. -/
theorem c5_counterexample :
    2040 - 2000 < SENSOR_DEBOUNCE_TIME ∧
    2080 - 2040 < SENSOR_DEBOUNCE_TIME ∧
    (runEdges [2000, 2040, 2080] (bootedAt 0)).sensorTriggerCount = 2 := by
  decide

/-- C10 (counterexample): the boot-reachable photographing configuration at
step 1; the poll at time 12000 has spent 10390 ms in `Photographing`
(exceeding `PROCESSING_TIMEOUT`), but because the capture fails the handler
takes the early `return` and invokes the error path with
`STATUS_CAMERA_ERROR`, not `STATUS_TIMEOUT_ERROR`. -/
theorem c10_counterexample :
    PROCESSING_TIMEOUT < 12000 - photographingStep1.stateStartTime ∧
    photographingStep1.currentState = STATE_PHOTOGRAPHING ∧
    (loopIter 12000 false photographingStep1).errInvoked = some STATUS_CAMERA_ERROR ∧
    (loopIter 12000 false photographingStep1).errInvoked ≠ some STATUS_TIMEOUT_ERROR := by
  decide

/-- C1 (amended): for every state, when a loop iteration runs at a time when
the time in the current state strictly exceeds `RESET_TIMEOUT`, the iteration
is exactly a call of the error handler with `TimeoutError` (the state handler
is skipped); that call never sets the machine state to `Error` and never sets
`lastError` to `TimeoutError` — `lastError` is unchanged or cleared to `Ok`,
and the state is unchanged unless the handler's auto-recovery fires, in which
case it becomes `WaitingForCoin`. -/
theorem c1_amended_timeout_invokes_handler (now : Nat) (cap : Bool)
    (s : Machine) (h : RESET_TIMEOUT < now - s.stateStartTime) :
    (loopIter now cap s).errInvoked = some STATUS_TIMEOUT_ERROR ∧
    (loopIter now cap s).m = (handleError now STATUS_TIMEOUT_ERROR s).1 ∧
    ((loopIter now cap s).m.lastError = s.lastError ∨
      (loopIter now cap s).m.lastError = STATUS_OK) ∧
    ((loopIter now cap s).m.currentState = s.currentState ∨
      (loopIter now cap s).m.currentState = STATE_WAITING_FOR_COIN) ∧
    (s.currentState ≠ STATE_ERROR →
      (loopIter now cap s).m.currentState ≠ STATE_ERROR) ∧
    (s.lastError ≠ STATUS_TIMEOUT_ERROR →
      (loopIter now cap s).m.lastError ≠ STATUS_TIMEOUT_ERROR) := by
  simp only [loopIter_timeout now cap s h]
  by_cases h3 : 3 ≤ (if 5000 < now - s.lastErrorReport
      then s.errorCount + 1 else s.errorCount)
  · have R := handleError_recovery now STATUS_TIMEOUT_ERROR s h3
    refine ⟨trivial, trivial, ?_, ?_, ?_, ?_⟩
    · rw [R.2.2.2.2.2.2.2.1]
      split_ifs <;> simp
    · rw [R.1]
      right
      rfl
    · intro _
      rw [R.1]
      decide
    · intro he
      rw [R.2.2.2.2.2.2.2.1]
      split_ifs
      · exact he
      · decide
  · have N := handleError_no_recovery now STATUS_TIMEOUT_ERROR s (by omega)
    refine ⟨trivial, trivial, Or.inl N.2.2.1, Or.inl N.1, ?_, ?_⟩
    · intro hne
      rw [N.1]
      exact hne
    · intro he
      rw [N.2.2.1]
      exact he

/-- C1 (witness): the amended C1 theorem applied to the machine booted at
time 0 and polled at time 30001. -/
theorem c1_witness :
    RESET_TIMEOUT < 30001 - (bootedAt 0).stateStartTime ∧
    ((loopIter 30001 true (bootedAt 0)).errInvoked
        = some STATUS_TIMEOUT_ERROR ∧
      (loopIter 30001 true (bootedAt 0)).m
        = (handleError 30001 STATUS_TIMEOUT_ERROR (bootedAt 0)).1 ∧
      ((loopIter 30001 true (bootedAt 0)).m.lastError = (bootedAt 0).lastError ∨
        (loopIter 30001 true (bootedAt 0)).m.lastError = STATUS_OK) ∧
      ((loopIter 30001 true (bootedAt 0)).m.currentState
          = (bootedAt 0).currentState ∨
        (loopIter 30001 true (bootedAt 0)).m.currentState
          = STATE_WAITING_FOR_COIN) ∧
      ((bootedAt 0).currentState ≠ STATE_ERROR →
        (loopIter 30001 true (bootedAt 0)).m.currentState ≠ STATE_ERROR) ∧
      ((bootedAt 0).lastError ≠ STATUS_TIMEOUT_ERROR →
        (loopIter 30001 true (bootedAt 0)).m.lastError
          ≠ STATUS_TIMEOUT_ERROR)) :=
  ⟨by decide, c1_amended_timeout_invokes_handler 30001 true (bootedAt 0)
    (by decide)⟩

/-- C2 (amended): a failed capture at photo step 1 or 3 invokes the error
handler with `CameraError` and returns; the machine stays in `Photographing`
at the same step with `lastError` unchanged, so the capture is retried on a
later poll rather than abandoned.  Independently, every entry into
`Photographing` from `Processing` starts the sub-sequence at step 0. -/
theorem c2_amended_capture_failure_retries :
    (∀ (now : Nat) (cap : Bool) (s : Machine),
      s.currentState = STATE_PHOTOGRAPHING →
      (s.currentPhotoStep = 1 ∨ s.currentPhotoStep = 3) →
      SERVO_MOVE_DELAY ≤ now - s.flipperMoveTime →
      cap = false →
      now - s.stateStartTime ≤ RESET_TIMEOUT →
      (if 5000 < now - s.lastErrorReport then s.errorCount + 1
        else s.errorCount) < 3 →
      (loopIter now cap s).errInvoked = some STATUS_CAMERA_ERROR ∧
      (loopIter now cap s).m.currentState = STATE_PHOTOGRAPHING ∧
      (loopIter now cap s).m.currentPhotoStep = s.currentPhotoStep ∧
      (loopIter now cap s).m.lastError = s.lastError) ∧
    (∀ (now : Nat) (cap : Bool) (s : Machine),
      s.currentState = STATE_PROCESSING →
      s.sensorTriggered = false →
      500 ≤ now - s.stateStartTime →
      now - s.stateStartTime ≤ RESET_TIMEOUT →
      (loopIter now cap s).m.currentState = STATE_PHOTOGRAPHING ∧
      (loopIter now cap s).m.currentPhotoStep = 0) := by
  constructor
  · intro now cap s hs hstep hd hcap hdisp hec
    simp only [loopIter_photographing now cap s (by omega) hs]
    have F := handlePhotographing_capture_fail now cap s hstep hd hcap hec
    refine ⟨F.1, ?_, F.2.2.1, F.2.2.2⟩
    rw [F.2.1, hs]
  · intro now cap s hs htr hd hdisp
    simp only [loopIter_processing now cap s (by omega) hs]
    have S := handleProcessing_settle now s hs htr hd
    exact ⟨S.1, S.2.1⟩

/-- C2 (witness): the amended C2 theorem applied to the boot-reachable
photographing configuration with a failed capture at time 2200, and to the
boot-reachable processing configuration polled at time 1610. -/
theorem c2_witness :
    ((loopIter 2200 false photographingStep1).errInvoked
        = some STATUS_CAMERA_ERROR ∧
      (loopIter 2200 false photographingStep1).m.currentState
        = STATE_PHOTOGRAPHING ∧
      (loopIter 2200 false photographingStep1).m.currentPhotoStep
        = photographingStep1.currentPhotoStep ∧
      (loopIter 2200 false photographingStep1).m.lastError
        = photographingStep1.lastError) ∧
    ((loopIter 1610 true processingReady).m.currentState
        = STATE_PHOTOGRAPHING ∧
      (loopIter 1610 true processingReady).m.currentPhotoStep = 0) :=
  ⟨c2_amended_capture_failure_retries.1 2200 false photographingStep1
      (by decide) (by decide) (by decide) (by decide) (by decide) (by decide),
    c2_amended_capture_failure_retries.2 1610 true processingReady
      (by decide) (by decide) (by decide) (by decide)⟩

/-- C3 (amended): in `CoinDetected`, once the time in the state reaches
`MULTI_COIN_TIMEOUT`, the decision poll fires: it goes to `Rejecting` with
`MultipleCoins` exactly when the edge count is at least
`MULTI_COIN_THRESHOLD` and the time since the window's first edge strictly
exceeds `MULTI_COIN_TIMEOUT`; otherwise it goes to `Processing` with
`lastError` unchanged; on either branch the detector count and window start
are reset. -/
theorem c3_amended_window_decision (now : Nat) (cap : Bool) (s : Machine)
    (hs : s.currentState = STATE_COIN_DETECTED)
    (hgate : MULTI_COIN_TIMEOUT ≤ now - s.stateStartTime)
    (hdisp : now - s.stateStartTime ≤ RESET_TIMEOUT) :
    ((MULTI_COIN_THRESHOLD ≤ s.sensorTriggerCount ∧
        MULTI_COIN_TIMEOUT < now - s.sensorWindowStart) →
      (loopIter now cap s).m.currentState = STATE_REJECTING ∧
      (loopIter now cap s).m.lastError = STATUS_MULTIPLE_COINS) ∧
    (¬(MULTI_COIN_THRESHOLD ≤ s.sensorTriggerCount ∧
        MULTI_COIN_TIMEOUT < now - s.sensorWindowStart) →
      (loopIter now cap s).m.currentState = STATE_PROCESSING ∧
      (loopIter now cap s).m.lastError = s.lastError) ∧
    (loopIter now cap s).m.sensorTriggerCount = 0 ∧
    (loopIter now cap s).m.sensorWindowStart = 0 := by
  simp only [loopIter_coinDetected now cap s (by omega) hs]
  have D := handleCoinDetected_decision now s hs hgate
  refine ⟨?_, ?_, D.2.2.1, D.2.2.2.1⟩
  · intro hcond
    have hm : isMultipleCoinDetected now s = true := by
      unfold isMultipleCoinDetected
      rw [if_pos ⟨Nat.lt_of_lt_of_le (by decide) hcond.1, hcond.2⟩]
      simpa using hcond.1
    exact D.1 hm
  · intro hcond
    have hm : isMultipleCoinDetected now s = false := by
      unfold isMultipleCoinDetected
      split_ifs with hw
      · simp only [decide_eq_false_iff_not]
        intro hle
        exact hcond ⟨hle, hw.2⟩
      · rfl
    exact D.2.1 hm

/-- C3 (witness): the amended C3 theorem applied to the boot-reachable
two-edge `CoinDetected` configuration, polled at time 3050 where the window
age strictly exceeds the timeout, so the multiple-coin branch fires. -/
theorem c3_witness :
    (MULTI_COIN_THRESHOLD ≤ coinDetectedExample.sensorTriggerCount ∧
      MULTI_COIN_TIMEOUT < 3050 - coinDetectedExample.sensorWindowStart) ∧
    (loopIter 3050 true coinDetectedExample).m.currentState
      = STATE_REJECTING ∧
    (loopIter 3050 true coinDetectedExample).m.lastError
      = STATUS_MULTIPLE_COINS ∧
    (loopIter 3050 true coinDetectedExample).m.sensorTriggerCount = 0 :=
  have T := c3_amended_window_decision 3050 true coinDetectedExample
    (by decide) (by decide) (by decide)
  have hc : MULTI_COIN_THRESHOLD ≤ coinDetectedExample.sensorTriggerCount ∧
      MULTI_COIN_TIMEOUT < 3050 - coinDetectedExample.sensorWindowStart :=
    by decide
  ⟨hc, (T.1 hc).1, (T.1 hc).2, T.2.2.1⟩

/-- C7: every loop iteration that moves the machine from a state other than
`WaitingForCoin` into `WaitingForCoin` — whatever the source state and
whatever the path taken — leaves the active error cleared (`Ok`), the Edge
Detector count reset to 0, and the processing flag cleared. -/
theorem c7_entry_into_waiting_clears (now : Nat) (cap : Bool) (s : Machine)
    (h1 : s.currentState ≠ STATE_WAITING_FOR_COIN)
    (h2 : (loopIter now cap s).m.currentState = STATE_WAITING_FOR_COIN) :
    (loopIter now cap s).m.lastError = STATUS_OK ∧
    (loopIter now cap s).m.sensorTriggerCount = 0 ∧
    (loopIter now cap s).m.processingCoin = false := by
  by_cases ht : RESET_TIMEOUT < now - s.stateStartTime
  · simp only [loopIter_timeout now cap s ht] at h2 ⊢
    exact handleError_enters_waiting now STATUS_TIMEOUT_ERROR s h1 h2
  · cases hcs : s.currentState with
    | STATE_INIT =>
        simp only [loopIter_init now cap s ht hcs] at h2 ⊢
        have H := changeState_to_waiting now s h1
        exact ⟨H.2.1, H.2.2.1, H.2.2.2.1⟩
    | STATE_WAITING_FOR_COIN => exact absurd hcs h1
    | STATE_COIN_DETECTED =>
        simp only [loopIter_coinDetected now cap s ht hcs] at h2 ⊢
        exfalso
        by_cases hg : MULTI_COIN_TIMEOUT ≤ now - s.stateStartTime
        · have D := handleCoinDetected_decision now s hcs hg
          by_cases hm : isMultipleCoinDetected now s = true
          · rw [(D.1 hm).1] at h2
            exact CoinMachineState.noConfusion h2
          · rw [(D.2.1 (by simpa using hm)).1] at h2
            exact CoinMachineState.noConfusion h2
        · rw [handleCoinDetected_wait now s hg] at h2
          exact h1 h2
    | STATE_PROCESSING =>
        simp only [loopIter_processing now cap s ht hcs] at h2 ⊢
        exfalso
        by_cases htr : s.sensorTriggered = true
        · rw [(handleProcessing_triggered now s hcs htr).1] at h2
          exact CoinMachineState.noConfusion h2
        · have htr2 : s.sensorTriggered = false := by simpa using htr
          by_cases hd : 500 ≤ now - s.stateStartTime
          · rw [(handleProcessing_settle now s hcs htr2 hd).1] at h2
            exact CoinMachineState.noConfusion h2
          · rw [handleProcessing_wait now s htr2 hd] at h2
            exact h1 h2
    | STATE_PHOTOGRAPHING =>
        simp only [loopIter_photographing now cap s ht hcs] at h2 ⊢
        exact handlePhotographing_enters_waiting now cap s hcs h2
    | STATE_REJECTING =>
        simp only [loopIter_rejecting now cap s ht hcs] at h2 ⊢
        exact handleRejecting_enters_waiting now s h1 h2
    | STATE_ERROR =>
        simp only [loopIter_error now cap s ht hcs] at h2 ⊢
        exact handleError_enters_waiting now s.lastError s h1 h2

/-- C7 (witness): the C7 theorem applied to the boot-reachable `Rejecting`
machine polled at time 6100, whose rejection sequence completes and
re-enters `WaitingForCoin`. -/
theorem c7_witness :
    rejectingExample.currentState ≠ STATE_WAITING_FOR_COIN ∧
    (loopIter 6100 true rejectingExample).m.currentState
      = STATE_WAITING_FOR_COIN ∧
    (loopIter 6100 true rejectingExample).m.lastError = STATUS_OK ∧
    (loopIter 6100 true rejectingExample).m.sensorTriggerCount = 0 ∧
    (loopIter 6100 true rejectingExample).m.processingCoin = false :=
  have T := c7_entry_into_waiting_clears 6100 true rejectingExample
    (by decide) (by decide)
  ⟨by decide, by decide, T.1, T.2.1, T.2.2⟩

/-- C9: `resetSensorCount` — including the reset performed on entry into
`WaitingForCoin` and during error recovery — clears the edge count and the
window start but leaves the triggered flag (and the debounce timestamp)
unchanged; the error handler also never clears the triggered flag;
consequently a `WaitingForCoin` machine whose trigger flag is still latched
transitions to `CoinDetected` at its very next dispatched poll, without any
new edge. -/
theorem c9_reset_preserves_trigger :
    (∀ s : Machine,
      (resetSensorCount s).sensorTriggerCount = 0 ∧
      (resetSensorCount s).sensorWindowStart = 0 ∧
      (resetSensorCount s).sensorTriggered = s.sensorTriggered ∧
      (resetSensorCount s).lastSensorTrigger = s.lastSensorTrigger ∧
      (resetSensorCount s).currentState = s.currentState) ∧
    (∀ (now : Nat) (err : StatusCode) (s : Machine),
      (handleError now err s).1.sensorTriggered = s.sensorTriggered) ∧
    (∀ (now : Nat) (cap : Bool) (s : Machine),
      s.currentState = STATE_WAITING_FOR_COIN →
      s.sensorTriggered = true →
      now - s.stateStartTime ≤ RESET_TIMEOUT →
      (loopIter now cap s).m.currentState = STATE_COIN_DETECTED ∧
      (loopIter now cap s).m.sensorTriggered = false) := by
  refine ⟨fun s => ⟨rfl, rfl, rfl, rfl, rfl⟩,
    fun now err s => handleError_sensorTriggered now err s,
    fun now cap s hs htrig hdisp => ?_⟩
  simp only [loopIter_waiting now cap s (by omega) hs]
  have hc : isSensorTriggered (setStatusLED LED_READY s) = true := htrig
  have hne : STATE_COIN_DETECTED ≠ (setStatusLED LED_READY s).currentState := by
    show STATE_COIN_DETECTED ≠ s.currentState
    rw [hs]
    decide
  simp only [handleWaitingForCoin]
  rw [if_pos hc]
  constructor
  · show (clearSensorTrigger _).currentState = STATE_COIN_DETECTED
    simpa [clearSensorTrigger] using
      changeState_enter_currentState now STATE_COIN_DETECTED _ hne
  · rfl

/-- C9 (witness): the C9 theorem applied at a concrete machine (the third
conjunct at the boot-reachable waiting machine with a latched trigger,
polled at time 110). -/
theorem c9_witness :
    ((resetSensorCount waitingTriggered).sensorTriggerCount = 0 ∧
      (resetSensorCount waitingTriggered).sensorWindowStart = 0 ∧
      (resetSensorCount waitingTriggered).sensorTriggered
        = waitingTriggered.sensorTriggered ∧
      (resetSensorCount waitingTriggered).lastSensorTrigger
        = waitingTriggered.lastSensorTrigger ∧
      (resetSensorCount waitingTriggered).currentState
        = waitingTriggered.currentState) ∧
    (handleError 200 STATUS_TIMEOUT_ERROR waitingTriggered).1.sensorTriggered
      = waitingTriggered.sensorTriggered ∧
    ((loopIter 110 true waitingTriggered).m.currentState
        = STATE_COIN_DETECTED ∧
      (loopIter 110 true waitingTriggered).m.sensorTriggered = false) :=
  ⟨c9_reset_preserves_trigger.1 waitingTriggered,
    c9_reset_preserves_trigger.2.1 200 STATUS_TIMEOUT_ERROR waitingTriggered,
    c9_reset_preserves_trigger.2.2 110 true waitingTriggered (by decide)
      (by decide) (by decide)⟩

/-- C10 (amended): `Photographing` is subject to a stricter timeout than the
global one: any dispatched `Photographing` iteration whose step handling does
not end in a failed-capture early return, at a time when the state has been
held strictly longer than `PROCESSING_TIMEOUT` (10 s), invokes the error
handler with `TimeoutError`, even though `RESET_TIMEOUT` is 30 s. -/
theorem c10_amended_photographing_timeout (now : Nat) (cap : Bool)
    (s : Machine) (hs : s.currentState = STATE_PHOTOGRAPHING)
    (htis : PROCESSING_TIMEOUT < now - s.stateStartTime)
    (hdisp : now - s.stateStartTime ≤ RESET_TIMEOUT)
    (hnf : ¬PhotoCaptureFailurePoll now cap s) :
    (loopIter now cap s).errInvoked = some STATUS_TIMEOUT_ERROR ∧
    PROCESSING_TIMEOUT = 10000 ∧ RESET_TIMEOUT = 30000 := by
  refine ⟨?_, rfl, rfl⟩
  simp only [loopIter_photographing now cap s (by omega) hs]
  exact handlePhotographing_timeout_invoked now cap s htis hnf

/-- C10 (witness): the amended C10 theorem applied to the boot-reachable
photographing configuration polled at time 12000 with a successful capture
(so no failed-capture return): the poll invokes the handler with
`TimeoutError`. -/
theorem c10_witness :
    PROCESSING_TIMEOUT < 12000 - photographingStep1.stateStartTime ∧
    (loopIter 12000 true photographingStep1).errInvoked
      = some STATUS_TIMEOUT_ERROR :=
  ⟨by decide,
    (c10_amended_photographing_timeout 12000 true photographingStep1
      (by decide) (by decide) (by decide) (by decide)).1⟩

theorem runEdges_all_rejected (ts : List Nat) (s : Machine) (t0 : Nat)
    (hlt : s.lastSensorTrigger = t0)
    (hall : ∀ u ∈ ts, u < t0 + SENSOR_DEBOUNCE_TIME) :
    runEdges ts s = s := by
  induction ts with
  | nil => rfl
  | cons u us ih =>
      have hu : u < t0 + SENSOR_DEBOUNCE_TIME := hall u (List.mem_cons_self u us)
      have hrej : sensorInterrupt u s = s := by
        unfold sensorInterrupt
        rw [if_pos (by
          rw [hlt]
          simp only [SENSOR_DEBOUNCE_TIME] at hu ⊢
          omega)]
      simp only [runEdges, hrej]
      exact ih fun v hv => hall v (List.mem_cons_of_mem u hv)

theorem runEdges_spaced (ts : List Nat) (s : Machine) (prev : Nat)
    (hlt : s.lastSensorTrigger = prev)
    (hsp : spacedBy SENSOR_DEBOUNCE_TIME prev ts = true) :
    (runEdges ts s).sensorTriggerCount = s.sensorTriggerCount + ts.length := by
  induction ts generalizing s prev with
  | nil => simp [runEdges]
  | cons u us ih =>
      simp only [spacedBy, Bool.and_eq_true, decide_eq_true_eq] at hsp
      obtain ⟨hp, hrest⟩ := hsp
      have hacc : ¬(u - s.lastSensorTrigger < SENSOR_DEBOUNCE_TIME) := by
        rw [hlt]
        omega
      simp only [runEdges]
      unfold sensorInterrupt
      rw [if_neg hacc]
      rw [ih _ u rfl hrest]
      simp only [List.length_cons]
      omega

/-- C5 (amended): an edge is dropped exactly when it falls within
`SENSOR_DEBOUNCE_TIME` of the last ACCEPTED edge (the debounce clock restarts
only at accepted edges): (1) for a fresh window, an accepted first edge
followed by any edges all within `SENSOR_DEBOUNCE_TIME` of that first edge
yields a count of exactly 1; (2) for any sequence of edges each at least
`SENSOR_DEBOUNCE_TIME` after the previous one, all within one
`MULTI_COIN_TIMEOUT` window of the first, every edge is counted: the count
equals the number of edges issued. -/
theorem c5_amended_debounce_counting :
    (∀ (t0 : Nat) (ts : List Nat) (s : Machine),
      s.sensorTriggerCount = 0 →
      s.lastSensorTrigger + SENSOR_DEBOUNCE_TIME ≤ t0 →
      (∀ u ∈ ts, u < t0 + SENSOR_DEBOUNCE_TIME) →
      (runEdges (t0 :: ts) s).sensorTriggerCount = 1) ∧
    (∀ (t0 : Nat) (ts : List Nat) (s : Machine),
      s.sensorTriggerCount = 0 →
      s.lastSensorTrigger + SENSOR_DEBOUNCE_TIME ≤ t0 →
      spacedBy SENSOR_DEBOUNCE_TIME t0 ts = true →
      (∀ u ∈ ts, u ≤ t0 + MULTI_COIN_TIMEOUT) →
      (runEdges (t0 :: ts) s).sensorTriggerCount = (t0 :: ts).length) := by
  constructor
  · intro t0 ts s hc hfirst hall
    simp only [runEdges]
    unfold sensorInterrupt
    rw [if_neg (by omega)]
    rw [runEdges_all_rejected ts _ t0 rfl hall]
    simp [hc]
  · intro t0 ts s hc hfirst hsp hwin
    simp only [runEdges]
    unfold sensorInterrupt
    rw [if_neg (by omega)]
    rw [runEdges_spaced ts _ t0 rfl hsp]
    simp only [List.length_cons]
    omega

/-- C5 (witness): the amended C5 theorem applied to concrete edge lists on
the freshly booted detector: edges at 2000, 2030, 2049 (all within 50 ms of
the first) count once; edges at 2000, 2050, 2100 (spaced 50 ms, within one
window) count three times. -/
theorem c5_witness :
    (runEdges [2000, 2030, 2049] (bootedAt 0)).sensorTriggerCount = 1 ∧
    (runEdges [2000, 2050, 2100] (bootedAt 0)).sensorTriggerCount = 3 :=
  ⟨c5_amended_debounce_counting.1 2000 [2030, 2049] (bootedAt 0) (by decide)
      (by decide) (by decide),
    c5_amended_debounce_counting.2 2000 [2050, 2100] (bootedAt 0) (by decide)
      (by decide) (by decide) (by decide)⟩

theorem handleError_state_cases (now : Nat) (err : StatusCode) (s : Machine) :
    (handleError now err s).1.currentState = s.currentState ∨
    (handleError now err s).1.currentState = STATE_WAITING_FOR_COIN := by
  by_cases h3 : 3 ≤ (if 5000 < now - s.lastErrorReport
      then s.errorCount + 1 else s.errorCount)
  · exact Or.inr (handleError_recovery now err s h3).1
  · exact Or.inl (handleError_no_recovery now err s (by omega)).1

theorem handleError_sst_cases (now : Nat) (err : StatusCode) (s : Machine) :
    (handleError now err s).1.stateStartTime = s.stateStartTime ∨
    (handleError now err s).1.stateStartTime = now := by
  by_cases h3 : 3 ≤ (if 5000 < now - s.lastErrorReport
      then s.errorCount + 1 else s.errorCount)
  · have R := (handleError_recovery now err s h3).2.2.2.2.2.2.2.2.2
    rw [R]
    split_ifs <;> first | exact Or.inl rfl | exact Or.inr rfl
  · exact Or.inl (handleError_no_recovery now err s (by omega)).2.1

theorem handleWaitingForCoin_lastSensorTrigger (now : Nat) (s : Machine) :
    (handleWaitingForCoin now s).lastSensorTrigger = s.lastSensorTrigger := by
  simp only [handleWaitingForCoin]
  split_ifs <;>
    simp [clearSensorTrigger, changeState_lastSensorTrigger, setStatusLED]

theorem handleCoinDetected_lastSensorTrigger (now : Nat) (s : Machine) :
    (handleCoinDetected now s).lastSensorTrigger = s.lastSensorTrigger := by
  simp only [handleCoinDetected]
  split_ifs <;>
    simp [resetSensorCount, changeState_lastSensorTrigger, setStatusLED]

theorem handleProcessing_lastSensorTrigger (now : Nat) (s : Machine) :
    (handleProcessing now s).lastSensorTrigger = s.lastSensorTrigger := by
  simp only [handleProcessing]
  split_ifs <;>
    simp [resetSensorCount, clearSensorTrigger, changeState_lastSensorTrigger,
      setStatusLED]

theorem handleRejecting_state_cases (now : Nat) (s : Machine) :
    ((handleRejecting now s).currentState = s.currentState ∨
      (handleRejecting now s).currentState = STATE_WAITING_FOR_COIN) ∧
    ((handleRejecting now s).stateStartTime = s.stateStartTime ∨
      (handleRejecting now s).stateStartTime = now) ∧
    (handleRejecting now s).lastSensorTrigger = s.lastSensorTrigger := by
  simp only [handleRejecting]
  split_ifs <;>
    refine ⟨?_, ?_, ?_⟩ <;>
      first
        | exact Or.inl rfl
        | exact rfl
        | exact Or.inr (changeState_waiting_currentState now _)
        | exact changeState_lastSensorTrigger now _ _
        | (rw [changeState_waiting_stateStartTime]
           split_ifs <;> first | exact Or.inl rfl | exact Or.inr rfl)

set_option maxHeartbeats 2000000 in
theorem handlePhotographing_state_cases (now : Nat) (cap : Bool) (s : Machine) :
    ((handlePhotographing now cap s).m.currentState = s.currentState ∨
      (handlePhotographing now cap s).m.currentState
        = STATE_WAITING_FOR_COIN) ∧
    ((handlePhotographing now cap s).m.stateStartTime = s.stateStartTime ∨
      (handlePhotographing now cap s).m.stateStartTime = now) ∧
    (handlePhotographing now cap s).m.lastSensorTrigger
      = s.lastSensorTrigger := by
  simp only [handlePhotographing]
  split_ifs <;>
    refine ⟨?_, ?_, ?_⟩ <;>
      first
        | exact Or.inl rfl
        | exact rfl
        | exact handleError_lastSensorTrigger now _ _
        | exact changeState_lastSensorTrigger now _ _
        | exact (handleError_lastSensorTrigger now _ _).trans
            (changeState_lastSensorTrigger now _ _)
        | exact (handleError_state_cases now _ _).imp (fun h => h) (fun h => h)
        | exact (handleError_sst_cases now _ _).imp (fun h => h) (fun h => h)
        | exact Or.inr (changeState_waiting_currentState now _)
        | exact (handleError_state_cases now _ _).elim
            (fun h => Or.inr (h.trans (changeState_waiting_currentState now _)))
            (fun h => Or.inr h)
        | (rw [changeState_waiting_stateStartTime]
           split_ifs <;> first | exact Or.inl rfl | exact Or.inr rfl)
        | exact (handleError_sst_cases now _ _).elim
            (fun h => by
              rw [h, changeState_waiting_stateStartTime]
              split_ifs <;> first | exact Or.inl rfl | exact Or.inr rfl)
            (fun h => Or.inr h)

theorem inv_edge (e T : Nat) (s : Machine) (hI : Inv s T) (hTe : T ≤ e) :
    Inv (sensorInterrupt e s) e := by
  obtain ⟨h1, h2, h3, h4⟩ := hI
  unfold sensorInterrupt
  split_ifs with hdeb h0
  · exact ⟨by omega, by omega, h3, h4⟩
  all_goals refine ⟨?_, ?_, ?_, ?_⟩
  all_goals
    first
      | (show s.stateStartTime ≤ e
         omega)
      | exact Nat.le_refl e
      | (intro _ htr
         exact Bool.noConfusion htr)

theorem inv_poll (t : Nat) (cap : Bool) (T : Nat) (s : Machine)
    (hI : Inv s T) (hT : T ≤ t) : Inv (loopIter t cap s).m t := by
  obtain ⟨h1, h2, h3, h4⟩ := hI
  by_cases ht : RESET_TIMEOUT < t - s.stateStartTime
  · simp only [loopIter_timeout t cap s ht]
    refine ⟨?_, by rw [handleError_lastSensorTrigger]; omega, ?_, ?_⟩
    · rcases handleError_sst_cases t STATUS_TIMEOUT_ERROR s with h | h <;> omega
    · intro hcd htr
      by_cases h3r : 3 ≤ (if 5000 < t - s.lastErrorReport
          then s.errorCount + 1 else s.errorCount)
      · rw [(handleError_recovery t STATUS_TIMEOUT_ERROR s h3r).1] at hcd
        exact absurd hcd (by decide)
      · have N := handleError_no_recovery t STATUS_TIMEOUT_ERROR s (by omega)
        rw [N.1] at hcd
        rw [handleError_sensorTriggered] at htr
        rw [handleError_lastSensorTrigger, N.2.1]
        exact h3 hcd htr
    · intro hpr htr
      by_cases h3r : 3 ≤ (if 5000 < t - s.lastErrorReport
          then s.errorCount + 1 else s.errorCount)
      · rw [(handleError_recovery t STATUS_TIMEOUT_ERROR s h3r).1] at hpr
        exact absurd hpr (by decide)
      · have N := handleError_no_recovery t STATUS_TIMEOUT_ERROR s (by omega)
        rw [N.1] at hpr
        rw [handleError_sensorTriggered] at htr
        rw [handleError_lastSensorTrigger, N.2.1]
        exact h4 hpr htr
  · cases hcs : s.currentState with
    | STATE_INIT =>
        simp only [loopIter_init t cap s ht hcs]
        refine ⟨?_, by rw [changeState_lastSensorTrigger]; omega, ?_, ?_⟩
        · rw [changeState_waiting_stateStartTime]
          split_ifs <;> omega
        · intro hcd
          rw [changeState_waiting_currentState] at hcd
          exact absurd hcd (by decide)
        · intro hpr
          rw [changeState_waiting_currentState] at hpr
          exact absurd hpr (by decide)
    | STATE_WAITING_FOR_COIN =>
        simp only [loopIter_waiting t cap s ht hcs]
        by_cases htr : s.sensorTriggered = true
        · have hc : isSensorTriggered (setStatusLED LED_READY s) = true := htr
          have hne : STATE_COIN_DETECTED
              ≠ (setStatusLED LED_READY s).currentState := by
            show STATE_COIN_DETECTED ≠ s.currentState
            rw [hcs]
            decide
          simp only [handleWaitingForCoin]
          rw [if_pos hc]
          have hsst : (clearSensorTrigger (changeState t STATE_COIN_DETECTED
              (setStatusLED LED_READY s))).stateStartTime = t := by
            show (changeState t STATE_COIN_DETECTED
              (setStatusLED LED_READY s)).stateStartTime = t
            exact changeState_enter_stateStartTime t _ _ hne
          have hltr : (clearSensorTrigger (changeState t STATE_COIN_DETECTED
              (setStatusLED LED_READY s))).lastSensorTrigger
                = s.lastSensorTrigger := by
            show (changeState t STATE_COIN_DETECTED
              (setStatusLED LED_READY s)).lastSensorTrigger = _
            exact changeState_lastSensorTrigger t _ _
          refine ⟨by rw [hsst], by rw [hltr]; omega, ?_, ?_⟩
          · intro _ _
            rw [hltr, hsst]
            omega
          · intro hpr
            have hcd2 : (clearSensorTrigger (changeState t STATE_COIN_DETECTED
                (setStatusLED LED_READY s))).currentState
                  = STATE_COIN_DETECTED := by
              show (changeState t STATE_COIN_DETECTED
                (setStatusLED LED_READY s)).currentState = _
              exact changeState_enter_currentState t _ _ hne
            rw [hcd2] at hpr
            exact absurd hpr (by decide)
        · have hc : ¬(isSensorTriggered (setStatusLED LED_READY s) = true) := htr
          simp only [handleWaitingForCoin]
          rw [if_neg hc]
          refine ⟨?_, ?_, ?_, ?_⟩
          · show s.stateStartTime ≤ t
            omega
          · show s.lastSensorTrigger ≤ t
            omega
          · intro hcd
            have hcd2 : s.currentState = STATE_COIN_DETECTED := hcd
            rw [hcs] at hcd2
            exact absurd hcd2 (by decide)
          · intro hpr
            have hpr2 : s.currentState = STATE_PROCESSING := hpr
            rw [hcs] at hpr2
            exact absurd hpr2 (by decide)
    | STATE_COIN_DETECTED =>
        simp only [loopIter_coinDetected t cap s ht hcs]
        have hltr := handleCoinDetected_lastSensorTrigger t s
        by_cases hg : MULTI_COIN_TIMEOUT ≤ t - s.stateStartTime
        · have D := handleCoinDetected_decision t s hcs hg
          by_cases hm : isMultipleCoinDetected t s = true
          · obtain ⟨hst, _⟩ := D.1 hm
            refine ⟨le_of_eq D.2.2.2.2.1, by rw [hltr]; omega, ?_, ?_⟩
            · intro hcd
              rw [hst] at hcd
              exact absurd hcd (by decide)
            · intro hpr
              rw [hst] at hpr
              exact absurd hpr (by decide)
          · obtain ⟨hst, _⟩ := D.2.1 (by simpa using hm)
            refine ⟨le_of_eq D.2.2.2.2.1, by rw [hltr]; omega, ?_, ?_⟩
            · intro hcd
              rw [hst] at hcd
              exact absurd hcd (by decide)
            · intro _ htr2
              rw [D.2.2.2.2.2] at htr2
              rw [hltr, D.2.2.2.2.1]
              have h5 := h3 hcs htr2
              omega
        · rw [handleCoinDetected_wait t s hg]
          refine ⟨?_, ?_, ?_, ?_⟩
          · show s.stateStartTime ≤ t
            omega
          · show s.lastSensorTrigger ≤ t
            omega
          · intro _ htr2
            have htr3 : s.sensorTriggered = false := htr2
            show s.lastSensorTrigger ≤ s.stateStartTime
            exact h3 hcs htr3
          · intro hpr
            have hpr2 : s.currentState = STATE_PROCESSING := hpr
            rw [hcs] at hpr2
            exact absurd hpr2 (by decide)
    | STATE_PROCESSING =>
        simp only [loopIter_processing t cap s ht hcs]
        have hltr := handleProcessing_lastSensorTrigger t s
        by_cases htr : s.sensorTriggered = true
        · have R := handleProcessing_triggered t s hcs htr
          refine ⟨le_of_eq R.2.2.2.2, by rw [hltr]; omega, ?_, ?_⟩
          · intro hcd
            rw [R.1] at hcd
            exact absurd hcd (by decide)
          · intro hpr
            rw [R.1] at hpr
            exact absurd hpr (by decide)
        · have htr2 : s.sensorTriggered = false := by simpa using htr
          by_cases hd : 500 ≤ t - s.stateStartTime
          · have S := handleProcessing_settle t s hcs htr2 hd
            refine ⟨le_of_eq S.2.2.1, by rw [hltr]; omega, ?_, ?_⟩
            · intro hcd
              rw [S.1] at hcd
              exact absurd hcd (by decide)
            · intro hpr
              rw [S.1] at hpr
              exact absurd hpr (by decide)
          · rw [handleProcessing_wait t s htr2 hd]
            refine ⟨?_, ?_, ?_, ?_⟩
            · show s.stateStartTime ≤ t
              omega
            · show s.lastSensorTrigger ≤ t
              omega
            · intro hcd
              have hcd2 : s.currentState = STATE_COIN_DETECTED := hcd
              rw [hcs] at hcd2
              exact absurd hcd2 (by decide)
            · intro _ htr3
              have htr4 : s.sensorTriggered = false := htr3
              show s.lastSensorTrigger + MULTI_COIN_TIMEOUT ≤ s.stateStartTime
              exact h4 hcs htr4
    | STATE_PHOTOGRAPHING =>
        simp only [loopIter_photographing t cap s ht hcs]
        obtain ⟨hstC, hsstC, hltr⟩ := handlePhotographing_state_cases t cap s
        refine ⟨?_, by rw [hltr]; omega, ?_, ?_⟩
        · rcases hsstC with h | h <;> omega
        · intro hcd
          rcases hstC with h | h
          · rw [h, hcs] at hcd
            exact absurd hcd (by decide)
          · rw [h] at hcd
            exact absurd hcd (by decide)
        · intro hpr
          rcases hstC with h | h
          · rw [h, hcs] at hpr
            exact absurd hpr (by decide)
          · rw [h] at hpr
            exact absurd hpr (by decide)
    | STATE_REJECTING =>
        simp only [loopIter_rejecting t cap s ht hcs]
        obtain ⟨hstC, hsstC, hltr⟩ := handleRejecting_state_cases t s
        refine ⟨?_, by rw [hltr]; omega, ?_, ?_⟩
        · rcases hsstC with h | h <;> omega
        · intro hcd
          rcases hstC with h | h
          · rw [h, hcs] at hcd
            exact absurd hcd (by decide)
          · rw [h] at hcd
            exact absurd hcd (by decide)
        · intro hpr
          rcases hstC with h | h
          · rw [h, hcs] at hpr
            exact absurd hpr (by decide)
          · rw [h] at hpr
            exact absurd hpr (by decide)
    | STATE_ERROR =>
        simp only [loopIter_error t cap s ht hcs]
        refine ⟨?_, by rw [handleError_lastSensorTrigger]; omega, ?_, ?_⟩
        · rcases handleError_sst_cases t s.lastError s with h | h <;> omega
        · intro hcd
          rcases handleError_state_cases t s.lastError s with h | h
          · rw [h, hcs] at hcd
            exact absurd hcd (by decide)
          · rw [h] at hcd
            exact absurd hcd (by decide)
        · intro hpr
          rcases handleError_state_cases t s.lastError s with h | h
          · rw [h, hcs] at hpr
            exact absurd hpr (by decide)
          · rw [h] at hpr
            exact absurd hpr (by decide)

theorem inv_boot (t0 : Nat) : Inv (bootedAt t0) t0 := by
  simp only [bootedAt]
  refine ⟨?_, ?_, ?_, ?_⟩
  · exact le_of_eq
      (changeState_enter_stateStartTime t0 STATE_WAITING_FOR_COIN initMachine
        (by decide))
  · rw [changeState_lastSensorTrigger]
    exact Nat.zero_le t0
  · intro hcd
    rw [changeState_waiting_currentState] at hcd
    exact absurd hcd (by decide)
  · intro hpr
    rw [changeState_waiting_currentState] at hpr
    exact absurd hpr (by decide)

theorem inv_run (evs : List MachineEvent) (s : Machine) (T : Nat)
    (hI : Inv s T) (hts : timesLB T evs = true) :
    Inv (runEvents evs s) (lastTime T evs) := by
  induction evs generalizing s T with
  | nil => exact hI
  | cons e es ih =>
      simp only [timesLB, Bool.and_eq_true, decide_eq_true_eq] at hts
      obtain ⟨hTe, hrest⟩ := hts
      have hstep : Inv (stepEvent e s) e.time := by
        cases e with
        | edge u => exact inv_edge u T s hI hTe
        | poll u cap2 => exact inv_poll u cap2 T s hI hTe
      simp only [runEvents, lastTime, List.foldl_cons]
      exact ih (stepEvent e s) e.time hstep hrest

/-- C6: over any boot-reachable execution, if the machine sits in
`Processing` and a sensor edge arrives (whether the debounce accepts it or
not), the very next dispatched poll of `Processing` transitions to
`Rejecting` with error `CoinDuringProcessing` and resets the detector count.
A debounced edge can only occur if an earlier accepted edge already latched
the trigger flag, which no path clears while the machine is in
`CoinDetected`/`Processing`, so the rejection fires regardless of the Edge
Detector's count or window state. -/
theorem c6_edge_during_processing_rejects (t0 : Nat)
    (evs : List MachineEvent) (e t : Nat) (cap : Bool)
    (hts : timesLB t0 evs = true)
    (hs : (runEvents evs (bootedAt t0)).currentState = STATE_PROCESSING)
    (he : lastTime t0 evs ≤ e) (het : e ≤ t)
    (hdisp : t - (runEvents evs (bootedAt t0)).stateStartTime ≤ RESET_TIMEOUT) :
    (loopIter t cap
        (sensorInterrupt e (runEvents evs (bootedAt t0)))).m.currentState
      = STATE_REJECTING ∧
    (loopIter t cap
        (sensorInterrupt e (runEvents evs (bootedAt t0)))).m.lastError
      = STATUS_COIN_DURING_PROCESSING ∧
    (loopIter t cap
        (sensorInterrupt e
          (runEvents evs (bootedAt t0)))).m.sensorTriggerCount = 0 := by
  have hI : Inv (runEvents evs (bootedAt t0)) (lastTime t0 evs) :=
    inv_run evs (bootedAt t0) t0 (inv_boot t0) hts
  have htrig :
      (sensorInterrupt e (runEvents evs (bootedAt t0))).sensorTriggered
        = true := by
    unfold sensorInterrupt
    split_ifs with hdeb
    · by_contra hf
      have hf2 : (runEvents evs (bootedAt t0)).sensorTriggered = false := by
        simpa using hf
      have h5 := hI.2.2.2 hs hf2
      have h6 :
          (runEvents evs (bootedAt t0)).lastSensorTrigger + 1000
            ≤ (runEvents evs (bootedAt t0)).stateStartTime := h5
      have h7 :
          e - (runEvents evs (bootedAt t0)).lastSensorTrigger < 50 := hdeb
      have h8 := hI.1
      omega
    all_goals rfl
  have hcs2 :
      (sensorInterrupt e (runEvents evs (bootedAt t0))).currentState
        = STATE_PROCESSING := by
    unfold sensorInterrupt
    split_ifs <;> exact hs
  have hsst :
      (sensorInterrupt e (runEvents evs (bootedAt t0))).stateStartTime
        = (runEvents evs (bootedAt t0)).stateStartTime := by
    unfold sensorInterrupt
    split_ifs <;> rfl
  simp only [loopIter_processing t cap _ (by rw [hsst]; omega) hcs2]
  have R := handleProcessing_triggered t _ hcs2 htrig
  exact ⟨R.1, R.2.1, R.2.2.1⟩

/-- C6 (witness): the C6 theorem applied to the boot-reachable `Processing`
configuration, an edge at time 1200 and a poll at time 1210. -/
theorem c6_witness :
    (loopIter 1210 true
        (sensorInterrupt 1200
          (runEvents [.edge 100, .poll 110 true, .poll 1110 true]
            (bootedAt 0)))).m.currentState = STATE_REJECTING ∧
    (loopIter 1210 true
        (sensorInterrupt 1200
          (runEvents [.edge 100, .poll 110 true, .poll 1110 true]
            (bootedAt 0)))).m.lastError = STATUS_COIN_DURING_PROCESSING ∧
    (loopIter 1210 true
        (sensorInterrupt 1200
          (runEvents [.edge 100, .poll 110 true, .poll 1110 true]
            (bootedAt 0)))).m.sensorTriggerCount = 0 :=
  c6_edge_during_processing_rejects 0
    [.edge 100, .poll 110 true, .poll 1110 true] 1200 1210 true (by decide)
    (by decide) (by decide) (by decide) (by decide)

theorem stuck_step (s : Machine) (e : MachineEvent)
    (hs : s.currentState = STATE_WAITING_FOR_COIN)
    (ht : s.stateStartTime + RESET_TIMEOUT < e.time) :
    (stepEvent e s).currentState = STATE_WAITING_FOR_COIN ∧
    (stepEvent e s).stateStartTime = s.stateStartTime := by
  cases e with
  | edge u =>
      simp only [stepEvent]
      unfold sensorInterrupt
      split_ifs <;> exact ⟨hs, rfl⟩
  | poll u cap =>
      simp only [stepEvent, MachineEvent.time] at ht ⊢
      have htt : RESET_TIMEOUT < u - s.stateStartTime := by omega
      simp only [loopIter_timeout u cap s htt]
      by_cases h3 : 3 ≤ (if 5000 < u - s.lastErrorReport
          then s.errorCount + 1 else s.errorCount)
      · have R := handleError_recovery u STATUS_TIMEOUT_ERROR s h3
        exact ⟨R.1, by rw [R.2.2.2.2.2.2.2.2.2, if_pos hs]⟩
      · have N := handleError_no_recovery u STATUS_TIMEOUT_ERROR s (by omega)
        exact ⟨by rw [N.1]; exact hs, N.2.1⟩

theorem stuck_run (evs : List MachineEvent) (s : Machine)
    (hs : s.currentState = STATE_WAITING_FOR_COIN)
    (hts : ∀ ev ∈ evs, s.stateStartTime + RESET_TIMEOUT < ev.time) :
    (runEvents evs s).currentState = STATE_WAITING_FOR_COIN ∧
    (runEvents evs s).stateStartTime = s.stateStartTime := by
  induction evs generalizing s with
  | nil => exact ⟨hs, rfl⟩
  | cons e es ih =>
      have hstep := stuck_step s e hs (hts e (List.mem_cons_self e es))
      have hrest : ∀ ev ∈ es,
          (stepEvent e s).stateStartTime + RESET_TIMEOUT < ev.time := by
        intro ev hev
        rw [hstep.2]
        exact hts ev (List.mem_cons_of_mem e hev)
      obtain ⟨hcs2, hst2⟩ := ih (stepEvent e s) hstep.1 hrest
      exact ⟨hcs2, hst2.trans hstep.2⟩

/-- C8 (counterexample): a permanently fatal configuration IS reachable from
a running system, contradicting the claim's last part: the machine booted
into `WaitingForCoin` at time 1000, once every future event occurs after
`stateStartTime + RESET_TIMEOUT`, stays in `WaitingForCoin` with its state
timer pinned forever — every later iteration takes the loop's timeout path,
whose recovery `changeState` back to `WaitingForCoin` is a no-op that never
resets `stateStartTime`, so the dispatcher never runs again and no coin is
ever accepted. -/
theorem c8_counterexample : PermanentlyStuckInWaiting (bootedAt 1000) := by
  refine ⟨by decide, fun evs hts => ?_⟩
  exact stuck_run evs (bootedAt 1000) (by decide) hts

/-- C8 (amended): the error handler reports at most once per 5-second
interval — a report happens exactly when more than 5000 ms have passed since
the previous one, and it timestamps itself, so consecutive reports are more
than 5000 ms apart; in the `Error` state the active error (`lastError`) is
the code handed to the handler, and as soon as the report counter reaches 3
the handler performs the full hardware-safe reset (trapdoor closed, flipper
home, indicators off, detector count cleared) and transitions to
`WaitingForCoin`, otherwise it stays in `Error`.  HOWEVER, the claim's final
part fails: a permanently non-accepting configuration is reachable — any
machine left in `WaitingForCoin` longer than `RESET_TIMEOUT` never leaves it
again (the no-op recovery never resets the state timer). -/
theorem c8_amended_error_reporting_and_stuck :
    (∀ (now : Nat) (err : StatusCode) (s : Machine),
      ((handleError now err s).2 = true ↔ 5000 < now - s.lastErrorReport) ∧
      ((handleError now err s).2 = true →
        (handleError now err s).1.lastErrorReport = now) ∧
      ((handleError now err s).2 = false →
        (handleError now err s).1.lastErrorReport = s.lastErrorReport)) ∧
    (∀ (now1 now2 : Nat) (err1 err2 : StatusCode) (s : Machine),
      (handleError now1 err1 s).2 = true →
      (handleError now2 err2 (handleError now1 err1 s).1).2 = true →
      5000 < now2 - now1) ∧
    (∀ (now : Nat) (cap : Bool) (s : Machine),
      s.currentState = STATE_ERROR →
      now - s.stateStartTime ≤ RESET_TIMEOUT →
      (loopIter now cap s).errInvoked = some s.lastError ∧
      ((loopIter now cap s).reported = true ↔
        5000 < now - s.lastErrorReport) ∧
      (3 ≤ (if 5000 < now - s.lastErrorReport then s.errorCount + 1
          else s.errorCount) →
        (loopIter now cap s).m.currentState = STATE_WAITING_FOR_COIN ∧
        (loopIter now cap s).m.errorCount = 0 ∧
        (loopIter now cap s).m.lastError = STATUS_OK ∧
        (loopIter now cap s).m.trapdoorPosition = TRAPDOOR_CLOSED ∧
        (loopIter now cap s).m.flipperPosition = FLIPPER_HOME ∧
        (loopIter now cap s).m.statusLED = LED_OFF ∧
        (loopIter now cap s).m.cameraLights = false ∧
        (loopIter now cap s).m.sensorTriggerCount = 0) ∧
      ((if 5000 < now - s.lastErrorReport then s.errorCount + 1
          else s.errorCount) < 3 →
        (loopIter now cap s).m.currentState = STATE_ERROR)) ∧
    (∀ t0 : Nat, PermanentlyStuckInWaiting (bootedAt t0)) := by
  refine ⟨?_, ?_, ?_, ?_⟩
  · intro now err s
    refine ⟨?_, ?_, ?_⟩
    · rw [handleError_snd, decide_eq_true_eq]
    · intro h
      rw [handleError_snd, decide_eq_true_eq] at h
      rw [handleError_lastErrorReport, if_pos h]
    · intro h
      rw [handleError_snd, decide_eq_false_iff_not] at h
      rw [handleError_lastErrorReport, if_neg h]
  · intro now1 now2 err1 err2 s h1 h2
    rw [handleError_snd, decide_eq_true_eq] at h1
    rw [handleError_snd, decide_eq_true_eq, handleError_lastErrorReport,
      if_pos h1] at h2
    exact h2
  · intro now cap s hs hdisp
    have hsW : ¬(s.currentState = STATE_WAITING_FOR_COIN) := by
      rw [hs]
      decide
    simp only [loopIter_error now cap s (by omega) hs]
    refine ⟨trivial, ?_, ?_, ?_⟩
    · rw [handleError_snd, decide_eq_true_eq]
    · intro h3
      have R := handleError_recovery now s.lastError s h3
      exact ⟨R.1, R.2.1, by rw [R.2.2.2.2.2.2.2.1, if_neg hsW], R.2.2.2.1,
        R.2.2.2.2.1, R.2.2.2.2.2.1, R.2.2.2.2.2.2.1, R.2.2.1⟩
    · intro h3
      have N := handleError_no_recovery now s.lastError s h3
      rw [N.1]
      exact hs
  · intro t0
    exact ⟨changeState_waiting_currentState t0 initMachine,
      fun evs hts =>
        stuck_run evs (bootedAt t0)
          (changeState_waiting_currentState t0 initMachine) hts⟩

/-- C8 (witness): the amended C8 theorem applied at concrete inputs: the
report-throttle facts at the booted machine, an `Error`-state machine (the
failed-setup configuration) polled at 6000 ms — reporting and, with the
report counter at 2, recovering into `WaitingForCoin` with the trapdoor
closed — and the stuck property at boot time 7. -/
theorem c8_witness :
    ((handleError 6000 STATUS_CAMERA_ERROR (bootedAt 0)).2 = true ↔
      5000 < 6000 - (bootedAt 0).lastErrorReport) ∧
    ((loopIter 6000 true errorBoot).errInvoked = some errorBoot.lastError ∧
      ((loopIter 6000 true errorBoot).reported = true ↔
        5000 < 6000 - errorBoot.lastErrorReport) ∧
      (loopIter 6000 true errorBoot).m.currentState = STATE_ERROR) ∧
    ((loopIter 6000 true { errorBoot with errorCount := 2 }).m.currentState
        = STATE_WAITING_FOR_COIN ∧
      (loopIter 6000 true
          { errorBoot with errorCount := 2 }).m.trapdoorPosition
        = TRAPDOOR_CLOSED) ∧
    PermanentlyStuckInWaiting (bootedAt 7) :=
  have K := c8_amended_error_reporting_and_stuck.2.2.1 6000 true errorBoot
    (by decide) (by decide)
  have K2 := c8_amended_error_reporting_and_stuck.2.2.1 6000 true
    { errorBoot with errorCount := 2 } (by decide) (by decide)
  have R2 := K2.2.2.1 (by decide)
  ⟨(c8_amended_error_reporting_and_stuck.1 6000 STATUS_CAMERA_ERROR
      (bootedAt 0)).1,
    ⟨K.1, K.2.1, K.2.2.2 (by decide)⟩,
    ⟨R2.1, R2.2.2.2.1⟩,
    c8_amended_error_reporting_and_stuck.2.2.2 7⟩

end CoinMachine
